import Mathlib

set_option maxHeartbeats 1000000
set_option maxRecDepth 4000

/-- Attribute values stored in netCDF attribute tables: strings or numbers
(numeric values are modelled as rationals). -/
inductive Attr : Type
  | s : String → Attr
  | n : ℚ → Attr
deriving DecidableEq

/-- Payload of a netCDF variable: a numeric array or an array of strings
(fixed-width character data is modelled at the string level, the character
bridging helpers being external to this module). -/
inductive NCData : Type
  | num : List ℚ → NCData
  | str : List String → NCData
deriving DecidableEq

/-- An attributed array (a Py-ART variable dictionary): ordered attributes plus
the `data` member, always a concrete array. -/
structure Dict where
  attrs : List (String × Attr)
  data : NCData
deriving DecidableEq

/-- An on-disk netCDF variable: dimension names, ordered attributes, data. -/
structure NCVar where
  dims : List String
  attrs : List (String × Attr)
  data : NCData
deriving DecidableEq

/-- A netCDF file: dimensions (size `none` meaning unlimited), ordered global
attributes, and variables in creation order. -/
structure NCFile where
  dims : List (String × Option ℕ)
  gattrs : List (String × Attr)
  vars : List (String × NCVar)
deriving DecidableEq

/-- Length of a data payload (`.size` / `.shape[0]` of the stored array). -/
def dataLen : NCData → ℕ
  | NCData.num l => l.length
  | NCData.str l => l.length

/-- Ordered association-list lookup (first match), modelling Python dict lookup
and `in` tests on a netCDF variable/attribute table. -/
def alookup {α : Type} : List (String × α) → String → Option α
  | [], _ => none
  | (k', v) :: l, k => if k' = k then some v else alookup l k

/-- Python dict assignment `d[k] = v` on an insertion-ordered mapping:
replace in place when the key is present, append otherwise. -/
def aset {α : Type} (l : List (String × α)) (k : String) (v : α) : List (String × α) :=
  if l.any (fun p => decide (p.1 = k)) then
    l.map (fun p => if p.1 = k then (k, v) else p)
  else l ++ [(k, v)]

/-- Attribute deletion (`delncattr`). -/
def adel {α : Type} (l : List (String × α)) (k : String) : List (String × α) :=
  l.filter (fun p => decide (p.1 ≠ k))

theorem alookup_append_of_none {α : Type} {l₁ : List (String × α)} (l₂ : List (String × α))
    {k : String} (h : alookup l₁ k = none) :
    alookup (l₁ ++ l₂) k = alookup l₂ k := by
  induction l₁ with
  | nil => rfl
  | cons p l ih =>
      obtain ⟨k', v⟩ := p
      by_cases hk : k' = k
      · simp [alookup, hk] at h
      · simp only [alookup, if_neg hk] at h
        simpa only [List.cons_append, alookup, if_neg hk] using ih h

theorem alookup_append_of_some {α : Type} {l₁ : List (String × α)} (l₂ : List (String × α))
    {k : String} {v : α} (h : alookup l₁ k = some v) :
    alookup (l₁ ++ l₂) k = some v := by
  induction l₁ with
  | nil => simp [alookup] at h
  | cons p l ih =>
      obtain ⟨k', w⟩ := p
      by_cases hk : k' = k
      · simp only [alookup, if_pos hk] at h
        simp only [List.cons_append, alookup, if_pos hk, h]
      · simp only [alookup, if_neg hk] at h
        simpa only [List.cons_append, alookup, if_neg hk] using ih h

theorem alookup_eq_none {α : Type} {l : List (String × α)} {k : String}
    (h : ∀ p ∈ l, p.1 ≠ k) : alookup l k = none := by
  induction l with
  | nil => rfl
  | cons p l ih =>
      obtain ⟨k', v⟩ := p
      have hk : k' ≠ k := h (k', v) (List.mem_cons_self _ _)
      simp only [alookup, if_neg hk]
      exact ih (fun q hq => h q (List.mem_cons_of_mem _ hq))

theorem alookup_of_mem_nodup {α : Type} {l : List (String × α)} {k : String} {v : α}
    (hn : (l.map Prod.fst).Nodup) (hm : (k, v) ∈ l) : alookup l k = some v := by
  induction l with
  | nil => simp at hm
  | cons p l ih =>
      obtain ⟨k', w⟩ := p
      simp only [List.map_cons, List.nodup_cons] at hn
      rcases List.mem_cons.mp hm with h | h
      · injection h with h1 h2
        subst h1
        subst h2
        simp [alookup]
      · have hk : k' ≠ k := by
          intro hkk
          subst hkk
          exact hn.1 (List.mem_map.mpr ⟨(k', v), h, rfl⟩)
        simp only [alookup, if_neg hk]
        exact ih hn.2 h

theorem aset_of_not_mem {α : Type} {l : List (String × α)} {k : String} (v : α)
    (h : ∀ p ∈ l, p.1 ≠ k) : aset l k v = l ++ [(k, v)] := by
  unfold aset
  have hc : (l.any (fun p => decide (p.1 = k))) = false := by
    rw [List.any_eq_false]
    intro p hp
    simp only [decide_eq_true_eq]
    exact h p hp
  simp [hc]

theorem aset_cons_eq {α : Type} (l : List (String × α)) (k : String) (w v : α) :
    aset ((k, w) :: l) k v = (k, v) :: l.map (fun p => if p.1 = k then (k, v) else p) := by
  unfold aset
  simp

theorem aset_cons_ne {α : Type} (l : List (String × α)) {k' k : String} (hk : k' ≠ k)
    (w : α) (v : α) : aset ((k', w) :: l) k v = (k', w) :: aset l k v := by
  unfold aset
  by_cases hc : (l.any (fun p => decide (p.1 = k))) = true
  · have : (((k', w) :: l).any (fun p => decide (p.1 = k))) = true := by
      simp only [List.any_cons, hc, Bool.or_true]
    simp only [this, if_pos rfl, List.map_cons, if_neg hk, hc]
    simp
  · have : (((k', w) :: l).any (fun p => decide (p.1 = k))) = false := by
      simp only [List.any_cons, Bool.or_eq_false_iff]
      exact ⟨decide_eq_false hk, Bool.not_eq_true _ ▸ hc⟩
    simp only [this, Bool.false_eq_true, if_neg (by simp : ¬False)]
    rw [Bool.not_eq_true] at hc
    simp [hc]

theorem alookup_aset_self {α : Type} (l : List (String × α)) (k : String) (v : α) :
    alookup (aset l k v) k = some v := by
  induction l with
  | nil => simp [aset, alookup]
  | cons q l ih =>
      obtain ⟨k', w⟩ := q
      by_cases hk : k' = k
      · subst hk
        rw [aset_cons_eq]
        simp [alookup]
      · rw [aset_cons_ne l hk]
        simp only [alookup, if_neg hk]
        exact ih

theorem alookup_filter_key {α : Type} {p : String × α → Bool} {l : List (String × α)}
    {k : String} (hp : ∀ v, p (k, v) = true) :
    alookup (l.filter p) k = alookup l k := by
  induction l with
  | nil => rfl
  | cons q l ih =>
      obtain ⟨k', v⟩ := q
      by_cases hk : k' = k
      · subst hk
        simp [List.filter_cons, hp v, alookup]
      · by_cases hq : p (k', v) = true
        · simp only [List.filter_cons, hq, if_pos rfl, alookup, if_neg hk]
          exact ih
        · simp only [List.filter_cons, alookup, if_neg hk]
          rw [Bool.not_eq_true] at hq
          simp only [hq, Bool.false_eq_true, if_neg (by simp : ¬False)]
          exact ih


/-- The sentinel value used to initialise the dense ray × gate grid
(`np.ma.zeros([nrays, maxgates]) - 9999.0`). -/
def sentinel : ℚ := -9999

/-- Arguments of the ray-reshape helper `_stream_to_2d`: the flat concatenated
per-ray data, per-sweep start and end ray indices, per-ray gate counts, the
maximum gate count, the total ray count and the per-ray start offsets. -/
structure StreamArgs where
  data : List ℚ
  sweeps : List ℕ
  sweepe : List ℕ
  ray_len : List ℕ
  maxgates : ℕ
  nrays : ℕ
  ray_start_index : List ℕ

/-- `ss = sweeps[sweep_number]`. -/
def sweepStart (a : StreamArgs) (sn : ℕ) : ℕ := a.sweeps.getD sn 0

/-- `se = sweepe[sweep_number]`. -/
def sweepEnd (a : StreamArgs) (sn : ℕ) : ℕ := a.sweepe.getD sn 0

/-- The Python slice `ray_len[ss:se]`. -/
def sweepSeg (a : StreamArgs) (sn : ℕ) : List ℕ :=
  (a.ray_len.drop (sweepStart a sn)).take (sweepEnd a sn - sweepStart a sn)

/-- The guard of the bulk path: `ray_len[ss:se].sum() == rle * (se - ss)` with
`rle = ray_len[ss]`. -/
def sweepUniform (a : StreamArgs) (sn : ℕ) : Bool :=
  decide ((sweepSeg a sn).sum =
    a.ray_len.getD (sweepStart a sn) 0 * (sweepEnd a sn - sweepStart a sn))

/-- Bulk path of one sweep:
`time_range[ss:se, 0:rle] = data[cp:cp + (se - ss) * rle].reshape(se - ss, rle)`
followed by `cp += (se - ss) * rle`, as a functional update of the grid. -/
def bulkStep (a : StreamArgs) (g : ℕ → ℕ → ℚ) (cp : ℕ) (sn : ℕ) : (ℕ → ℕ → ℚ) × ℕ :=
  let ss := sweepStart a sn
  let se := sweepEnd a sn
  let rle := a.ray_len.getD ss 0
  (fun r c => if ss ≤ r ∧ r < se ∧ c < rle
      then a.data.getD (cp + (r - ss) * rle + c) 0 else g r c,
   cp + (se - ss) * rle)

/-- One ray of the ragged path:
`time_range[ss + rn, 0:ray_len[ss + rn]]` is assigned the slice of `data`
starting at `ray_start_index[ss + rn]` of length `ray_len[ss + rn]`. -/
def rayWrite (a : StreamArgs) (ss : ℕ) (g : ℕ → ℕ → ℚ) (rn : ℕ) : ℕ → ℕ → ℚ :=
  fun r c => if r = ss + rn ∧ c < a.ray_len.getD (ss + rn) 0
      then a.data.getD (a.ray_start_index.getD (ss + rn) 0 + c) 0 else g r c

/-- Ragged path of one sweep: the `for rn in range(se - ss)` copy loop,
followed by `cp += ray_len[ss:se].sum()`. -/
def raggedStep (a : StreamArgs) (g : ℕ → ℕ → ℚ) (cp : ℕ) (sn : ℕ) : (ℕ → ℕ → ℚ) × ℕ :=
  ((List.range (sweepEnd a sn - sweepStart a sn)).foldl (rayWrite a (sweepStart a sn)) g,
   cp + (sweepSeg a sn).sum)

/-- The body of the `for sweep_number in range(len(sweepe))` loop. -/
def streamStep (a : StreamArgs) (acc : (ℕ → ℕ → ℚ) × ℕ) (sn : ℕ) : (ℕ → ℕ → ℚ) × ℕ :=
  if sweepUniform a sn then bulkStep a acc.1 acc.2 sn else raggedStep a acc.1 acc.2 sn

/-- `_stream_to_2d`: convert a 1D stream to a 2D (ray × gate) grid, here as a
cell-indexed function; the grid starts out all-sentinel and each sweep writes
through either the bulk path or the ragged path. -/
def _stream_to_2d (a : StreamArgs) : ℕ → ℕ → ℚ :=
  ((List.range a.sweepe.length).foldl (streamStep a) (fun _ _ => sentinel, 0)).1

/-- Cell (r, c) is written by sweep `sn`, following whichever of the two write
paths that sweep takes. -/
def sweepCoveredB (a : StreamArgs) (r c : ℕ) (sn : ℕ) : Bool :=
  if sweepUniform a sn then
    decide (sweepStart a sn ≤ r ∧ r < sweepEnd a sn ∧
      c < a.ray_len.getD (sweepStart a sn) 0)
  else
    decide (∃ rn, rn < sweepEnd a sn - sweepStart a sn ∧ r = sweepStart a sn + rn ∧
      c < a.ray_len.getD (sweepStart a sn + rn) 0)

/-- Cell (r, c) is covered by the data of some ray of some sweep. -/
def coveredB (a : StreamArgs) (r c : ℕ) : Bool :=
  (List.range a.sweepe.length).any (sweepCoveredB a r c)

theorem rayWrite_fold_preserve (a : StreamArgs) (ss r c : ℕ) :
    ∀ (L : List ℕ) (g : ℕ → ℕ → ℚ),
      (∀ rn ∈ L, ¬(r = ss + rn ∧ c < a.ray_len.getD (ss + rn) 0)) →
      L.foldl (rayWrite a ss) g r c = g r c := by
  intro L
  induction L with
  | nil => intro g _; rfl
  | cons rn L ih =>
      intro g h
      have h1 := h rn (List.mem_cons_self _ _)
      simp only [List.foldl_cons]
      rw [ih _ (fun x hx => h x (List.mem_cons_of_mem _ hx))]
      simp only [rayWrite]
      rw [if_neg h1]

theorem streamStep_preserve (a : StreamArgs) (sn r c : ℕ) (acc : (ℕ → ℕ → ℚ) × ℕ)
    (h : sweepCoveredB a r c sn = false) :
    (streamStep a acc sn).1 r c = acc.1 r c := by
  unfold streamStep sweepCoveredB at *
  by_cases hu : sweepUniform a sn = true
  · rw [if_pos hu] at h ⊢
    have h' := of_decide_eq_false h
    simp only [bulkStep]
    rw [if_neg h']
  · rw [Bool.not_eq_true] at hu
    simp only [hu, Bool.false_eq_true, if_neg (by simp : ¬False)] at h ⊢
    have h' := of_decide_eq_false h
    simp only [raggedStep]
    apply rayWrite_fold_preserve
    intro rn hrn
    intro hc
    exact h' ⟨rn, List.mem_range.mp hrn, hc.1, hc.2⟩

theorem stream_fold_preserve (a : StreamArgs) (r c : ℕ) :
    ∀ (L : List ℕ) (acc : (ℕ → ℕ → ℚ) × ℕ),
      (∀ sn ∈ L, sweepCoveredB a r c sn = false) →
      (L.foldl (streamStep a) acc).1 r c = acc.1 r c := by
  intro L
  induction L with
  | nil => intro acc _; rfl
  | cons sn L ih =>
      intro acc h
      simp only [List.foldl_cons]
      rw [ih _ (fun x hx => h x (List.mem_cons_of_mem _ hx))]
      exact streamStep_preserve a sn r c acc (h sn (List.mem_cons_self _ _))

theorem stream_uncovered_sentinel (a : StreamArgs) (r c : ℕ)
    (h : coveredB a r c = false) : _stream_to_2d a r c = sentinel := by
  unfold _stream_to_2d
  rw [stream_fold_preserve]
  intro sn hsn
  have := List.any_eq_false.mp h
  exact Bool.not_eq_true _ ▸ this sn hsn

/-- The uniform example: 2 sweeps of 3 rays × 4 gates, flat data `[0..23]`. -/
def exUniform : StreamArgs :=
  { data := (List.range 24).map (fun n => (n : ℚ)),
    sweeps := [0, 3], sweepe := [3, 6], ray_len := [4, 4, 4, 4, 4, 4],
    maxgates := 4, nrays := 6, ray_start_index := [0, 4, 8, 12, 16, 20] }

/-- The ragged example: one sweep of 2 rays with gate counts `[3, 5]`. -/
def exRagged : StreamArgs :=
  { data := (List.range 8).map (fun n => (n : ℚ)),
    sweeps := [0], sweepe := [2], ray_len := [3, 5],
    maxgates := 5, nrays := 2, ray_start_index := [0, 3] }

/-- A sweep whose ray lengths `[4, 3, 5]` are not identical but whose sum `12`
coincidentally equals `first_ray_length × ray_count = 4 × 3`. -/
def exCoincidence : StreamArgs :=
  { data := (List.range 12).map (fun n => (n : ℚ)),
    sweeps := [0], sweepe := [3], ray_len := [4, 3, 5],
    maxgates := 5, nrays := 3, ray_start_index := [0, 4, 7] }

theorem list_sum_const {c : ℕ} : ∀ {l : List ℕ}, (∀ x ∈ l, x = c) → l.sum = c * l.length := by
  intro l
  induction l with
  | nil => intro _; simp
  | cons x l ih =>
      intro h
      have hx : x = c := h x (List.mem_cons_self _ _)
      have hl := ih (fun y hy => h y (List.mem_cons_of_mem _ hy))
      simp only [List.sum_cons, List.length_cons, hx, hl]
      ring

theorem sweepSeg_length (a : StreamArgs) (sn : ℕ)
    (hse : sweepEnd a sn ≤ a.ray_len.length) :
    (sweepSeg a sn).length = sweepEnd a sn - sweepStart a sn := by
  unfold sweepSeg
  rw [List.length_take, List.length_drop]
  exact min_eq_left (Nat.sub_le_sub_right hse _)

/-- C2 counterexample: for the sweep with ray lengths `[4, 3, 5]` the coded
condition `ray_len[ss:se].sum() == ray_len[ss] * (se - ss)` holds (`12 = 4 × 3`)
although the rays do not all have the first ray's gate count, so the bulk path
is taken and writes gate 3 of ray 1 (`value 7`) even though ray 1 has only 3
gates: the claimed equivalence between the coded condition and "all rays in the
sweep have identical gate count" is false. -/
theorem c2_sum_coincidence_cex :
    sweepUniform exCoincidence 0 = true ∧
    ¬ (∀ x ∈ sweepSeg exCoincidence 0,
        x = exCoincidence.ray_len.getD (sweepStart exCoincidence 0) 0) ∧
    exCoincidence.ray_len.getD 1 0 = 3 ∧
    _stream_to_2d exCoincidence 1 3 = 7 := by decide

/-- C2 (amended): the bulk reshape-and-copy path is taken exactly when the coded
sum condition `ray_len[ss:se].sum() == ray_len[ss] * (se - ss)` holds; when every
ray of a sweep (with in-range end index) has the first ray's gate count, that
condition holds and the sweep is processed by the bulk path. The converse
direction claimed (condition → identical gate counts) is false, see the
counterexample. -/
theorem c2_uniform_amended (a : StreamArgs) (sn : ℕ) (g : ℕ → ℕ → ℚ) (cp : ℕ)
    (hse : sweepEnd a sn ≤ a.ray_len.length)
    (hall : ∀ x ∈ sweepSeg a sn, x = a.ray_len.getD (sweepStart a sn) 0) :
    sweepUniform a sn = true ∧ streamStep a (g, cp) sn = bulkStep a g cp sn := by
  have h1 : sweepUniform a sn = true := by
    unfold sweepUniform
    rw [decide_eq_true_eq]
    rw [list_sum_const hall, sweepSeg_length a sn hse]
  refine ⟨h1, ?_⟩
  unfold streamStep
  rw [if_pos h1]

theorem c2_uniform_amended_witness :
    sweepUniform exUniform 0 = true ∧
    streamStep exUniform ((fun _ _ => sentinel), 0) 0 =
      bulkStep exUniform (fun _ _ => sentinel) 0 0 :=
  c2_uniform_amended exUniform 0 (fun _ _ => sentinel) 0 (by decide) (by decide)

/-- C3: `_stream_to_2d` produces a dense (ray × gate) grid whose cells not
covered by any ray's data hold the sentinel `-9999.0`; for 2 sweeps of
3 rays × 4 gates with identical per-ray lengths, the flat array `[0..23]`
reshapes to two (3×4) blocks stacked to shape (6,4) (cell (r,c) holds
`4*r + c`) with no sentinel cells; for one sweep of 2 rays with lengths
`[3, 5]` and `max_gates = 5`, gate columns 3–4 of ray 0 hold the sentinel. -/
theorem c3_stream_shape_sentinel :
    (∀ (a : StreamArgs) (r c : ℕ), coveredB a r c = false →
      _stream_to_2d a r c = sentinel) ∧
    (∀ r < 6, ∀ c < 4, _stream_to_2d exUniform r c = ((4 * r + c : ℕ) : ℚ) ∧
      _stream_to_2d exUniform r c ≠ sentinel) ∧
    (_stream_to_2d exRagged 0 3 = sentinel ∧ _stream_to_2d exRagged 0 4 = sentinel) :=
  ⟨stream_uncovered_sentinel, by decide, by decide⟩

theorem c3_stream_shape_sentinel_witness :
    coveredB exRagged 0 3 = false ∧ _stream_to_2d exRagged 0 3 = sentinel ∧
    _stream_to_2d exUniform 2 3 = ((11 : ℕ) : ℚ) :=
  ⟨by decide, c3_stream_shape_sentinel.1 exRagged 0 3 (by decide),
   (c3_stream_shape_sentinel.2.1 2 (by decide) 3 (by decide)).1⟩

/-- Python substring test `needle in hay`. -/
def strContains (hay needle : String) : Bool :=
  (List.range (hay.toList.length + 1)).any
    (fun i => List.isPrefixOf needle.toList (hay.toList.drop i))

/-- The six sweep-mode strings recognised exactly by the CF/Radial standard
branch of the scan-type inference. -/
def exactModes : List String :=
  ["rhi", "vertical_pointing", "azimuth_surveillance", "elevation_surveillance",
   "manual_ppi", "manual_rhi"]

/-- The scan-type inference of `read_cfradial` (lines 154–179): exact matches
against the CF/Radial mode strings first, then the substring fallbacks, then
`other`. -/
def scanTypeOfMode (mode : String) : String :=
  if mode = "rhi" then "rhi"
  else if mode = "vertical_pointing" then "vpt"
  else if mode = "azimuth_surveillance" then "ppi"
  else if mode = "elevation_surveillance" then "rhi"
  else if mode = "manual_ppi" then "ppi"
  else if mode = "manual_rhi" then "rhi"
  else if strContains mode "sur" then "ppi"
  else if strContains mode "sec" then "sector"
  else if strContains mode "rhi" then "rhi"
  else "other"

/-- C4: the six convention mode strings map exactly (azimuth_surveillance and
manual_ppi to ppi; rhi, elevation_surveillance and manual_rhi to rhi;
vertical_pointing to vpt); for any other string the substring fallbacks apply
in order ("sur" → ppi, then "sec" → sector, then "rhi" → rhi), and a string
matching none yields other; in particular "azimuth_surveillance", "rhi",
"vertical_pointing", the "sec"-containing string "sector", and the
unrecognised string "dummy" yield ppi, rhi, vpt, sector, other. -/
theorem c4_scan_type :
    (scanTypeOfMode "azimuth_surveillance" = "ppi" ∧
     scanTypeOfMode "manual_ppi" = "ppi" ∧
     scanTypeOfMode "rhi" = "rhi" ∧
     scanTypeOfMode "elevation_surveillance" = "rhi" ∧
     scanTypeOfMode "manual_rhi" = "rhi" ∧
     scanTypeOfMode "vertical_pointing" = "vpt") ∧
    (∀ mode : String, ¬ mode ∈ exactModes →
      ((strContains mode "sur" = true → scanTypeOfMode mode = "ppi") ∧
       (strContains mode "sur" = false → strContains mode "sec" = true →
         scanTypeOfMode mode = "sector") ∧
       (strContains mode "sur" = false → strContains mode "sec" = false →
         strContains mode "rhi" = true → scanTypeOfMode mode = "rhi") ∧
       (strContains mode "sur" = false → strContains mode "sec" = false →
         strContains mode "rhi" = false → scanTypeOfMode mode = "other"))) ∧
    (scanTypeOfMode "sector" = "sector" ∧ scanTypeOfMode "dummy" = "other") := by
  refine ⟨by decide, ?_, by decide⟩
  intro mode hmode
  simp only [exactModes, List.mem_cons, List.not_mem_nil, or_false, not_or] at hmode
  obtain ⟨h1, h2, h3, h4, h5, h6⟩ := hmode
  unfold scanTypeOfMode
  rw [if_neg h1, if_neg h2, if_neg h3, if_neg h4, if_neg h5, if_neg h6]
  refine ⟨?_, ?_, ?_, ?_⟩
  · intro hsur
    rw [if_pos hsur]
  · intro hsur hsec
    rw [if_neg (by simp [hsur]), if_pos hsec]
  · intro hsur hsec hrhi
    rw [if_neg (by simp [hsur]), if_neg (by simp [hsec]), if_pos hrhi]
  · intro hsur hsec hrhi
    rw [if_neg (by simp [hsur]), if_neg (by simp [hsec]), if_neg (by simp [hrhi])]

theorem c4_scan_type_witness :
    scanTypeOfMode "azimuth_surveillance" = "ppi" ∧
    scanTypeOfMode "xsurx" = "ppi" ∧ scanTypeOfMode "zzz_sec_scan" = "sector" :=
  ⟨c4_scan_type.1.1,
   (c4_scan_type.2.1 "xsurx" (by decide)).1 (by decide),
   (c4_scan_type.2.1 "zzz_sec_scan" (by decide)).2.1 (by decide) (by decide)⟩

/-- Keys skipped by the final attribute loop of `_create_ncvar`
(`['data', '_FillValue', 'long_name', 'units']`). -/
def excludedAttrKeys : List String := ["data", "_FillValue", "long_name", "units"]

/-- `_create_ncvar`: create and fill a variable from a Py-ART dictionary.
The file layer assigns `_FillValue` at creation time when a fill value is
given; `long_name` is set first if present, `units` second; `_FillValue` is
then deleted and re-set to make it the third attribute; the remaining
attributes follow in dictionary order. Data (already a concrete array in this
model, with string arrays bridged at the string level) is passed through. -/
def _create_ncvar (dic : Dict) (dims : List String) : NCVar :=
  let a0 : List (String × Attr) := match alookup dic.attrs "_FillValue" with
    | some fv => [("_FillValue", fv)]
    | none => []
  let a1 := match alookup dic.attrs "long_name" with
    | some v => aset a0 "long_name" v
    | none => a0
  let a2 := match alookup dic.attrs "units" with
    | some v => aset a1 "units" v
    | none => a1
  let a3 := match alookup a2 "_FillValue" with
    | some fv => aset (adel a2 "_FillValue") "_FillValue" fv
    | none => a2
  let a4 := dic.attrs.foldl
    (fun acc kv => if kv.1 ∈ excludedAttrKeys then acc else aset acc kv.1 kv.2) a3
  { dims := dims, attrs := a4, data := dic.data }

theorem create_ncvar_data (dic : Dict) (dims : List String) :
    (_create_ncvar dic dims).data = dic.data := rfl

theorem create_ncvar_dims (dic : Dict) (dims : List String) :
    (_create_ncvar dic dims).dims = dims := rfl

theorem foldl_aset_append (excl : List String) :
    ∀ (l acc : List (String × Attr)),
      (l.map Prod.fst).Nodup →
      (∀ p ∈ l, ¬ p.1 ∈ excl → ∀ q ∈ acc, q.1 ≠ p.1) →
      l.foldl (fun acc kv => if kv.1 ∈ excl then acc else aset acc kv.1 kv.2) acc =
        acc ++ l.filter (fun p => decide (¬ p.1 ∈ excl)) := by
  intro l
  induction l with
  | nil => intro acc _ _; simp
  | cons kv l ih =>
      intro acc hn hd
      obtain ⟨k, v⟩ := kv
      simp only [List.map_cons, List.nodup_cons] at hn
      by_cases hk : k ∈ excl
      · simp only [List.foldl_cons, if_pos hk, List.filter_cons, decide_eq_true_eq]
        rw [if_neg (by simpa using hk)]
        exact ih acc hn.2 (fun p hp hpe => hd p (List.mem_cons_of_mem _ hp) hpe)
      · simp only [List.foldl_cons, if_neg hk]
        have hset : aset acc k v = acc ++ [(k, v)] := by
          apply aset_of_not_mem
          intro q hq
          exact hd (k, v) (List.mem_cons_self _ _) hk q hq
        rw [hset]
        rw [ih (acc ++ [(k, v)]) hn.2 ?_]
        · simp only [List.filter_cons, decide_eq_true_eq]
          rw [if_pos (by simpa using hk)]
          simp
        · intro p hp hpe q hq
          rcases List.mem_append.mp hq with h | h
          · exact hd p (List.mem_cons_of_mem _ hp) hpe q h
          · have : q = (k, v) := by simpa using h
            subst this
            intro hc
            exact hn.1 (List.mem_map.mpr ⟨p, hp, hc.symm⟩)

/-- C8: for a source dictionary containing `long_name`, `units` and
`_FillValue` (with attribute keys not repeated), the created variable's
attribute table starts with exactly `long_name`, `units`, `_FillValue` in that
order (the creation-time `_FillValue` being deleted and re-set), followed by
all remaining attributes in source order; `_create_ncvar` is a pure function,
so every write of the same record produces this same ordering. -/
theorem c8_attr_order (dic : Dict) (dims : List String) (ln un fv : Attr)
    (hn : (dic.attrs.map Prod.fst).Nodup)
    (h1 : alookup dic.attrs "long_name" = some ln)
    (h2 : alookup dic.attrs "units" = some un)
    (h3 : alookup dic.attrs "_FillValue" = some fv) :
    (_create_ncvar dic dims).attrs =
      ("long_name", ln) :: ("units", un) :: ("_FillValue", fv) ::
        dic.attrs.filter (fun p => decide (¬ p.1 ∈ excludedAttrKeys)) := by
  have e1 : aset [("_FillValue", fv)] "long_name" ln =
      [("_FillValue", fv), ("long_name", ln)] := by
    rw [aset_of_not_mem]
    · rfl
    · intro p hp
      simp only [List.mem_singleton] at hp
      subst hp
      simp
  have e2 : aset [("_FillValue", fv), ("long_name", ln)] "units" un =
      [("_FillValue", fv), ("long_name", ln), ("units", un)] := by
    rw [aset_of_not_mem]
    · rfl
    · intro p hp
      rcases List.mem_cons.mp hp with h | h
      · subst h; simp
      · simp only [List.mem_singleton] at h
        subst h; simp
  have e3 : alookup [("_FillValue", fv), ("long_name", ln), ("units", un)] "_FillValue" =
      some fv := by simp [alookup]
  have e4 : adel [("_FillValue", fv), ("long_name", ln), ("units", un)] "_FillValue" =
      [("long_name", ln), ("units", un)] := by
    simp [adel, List.filter]
  have e5 : aset [("long_name", ln), ("units", un)] "_FillValue" fv =
      [("long_name", ln), ("units", un), ("_FillValue", fv)] := by
    rw [aset_of_not_mem]
    · rfl
    · intro p hp
      rcases List.mem_cons.mp hp with h | h
      · subst h; simp
      · simp only [List.mem_singleton] at h
        subst h; simp
  have e6 := foldl_aset_append excludedAttrKeys dic.attrs
    [("long_name", ln), ("units", un), ("_FillValue", fv)] hn ?_
  · unfold _create_ncvar
    simp only [h1, h2, h3, e1, e2, e3, e4, e5, e6]
    rfl
  · intro p hp hpe q hq hqp
    rcases List.mem_cons.mp hq with h | h
    · apply hpe
      rw [← hqp, h]
      simp [excludedAttrKeys]
    rcases List.mem_cons.mp h with h' | h'
    · apply hpe
      rw [← hqp, h']
      simp [excludedAttrKeys]
    · simp only [List.mem_singleton] at h'
      apply hpe
      rw [← hqp, h']
      simp [excludedAttrKeys]

theorem c8_attr_order_witness :
    (_create_ncvar
      { attrs := [("standard_name", Attr.s "eq_refl"), ("long_name", Attr.s "refl"),
                  ("units", Attr.s "dBZ"), ("_FillValue", Attr.n (-9999))],
        data := NCData.num [1, 2] } ["time", "range"]).attrs =
      [("long_name", Attr.s "refl"), ("units", Attr.s "dBZ"),
       ("_FillValue", Attr.n (-9999)), ("standard_name", Attr.s "eq_refl")] :=
  c8_attr_order _ _ _ _ _ (by decide) (by decide) (by decide) (by decide)

/-- The fixed catalog of instrument-parameter names and their on-disk
dimensions (`_INSTRUMENT_PARAMS_DIMS`); `('frequency')` is a plain string in
the source, i.e. the single dimension `frequency`. -/
def _INSTRUMENT_PARAMS_DIMS : List (String × List String) :=
  [("frequency", ["frequency"]),
   ("follow_mode", ["sweep", "string_length"]),
   ("pulse_width", ["time"]),
   ("prt_mode", ["sweep", "string_length"]),
   ("prt", ["time"]),
   ("prt_ratio", ["time"]),
   ("polarization_mode", ["sweep", "string_length"]),
   ("nyquist_velocity", ["time"]),
   ("unambiguous_range", ["time"]),
   ("n_samples", ["time"]),
   ("sampling_ratio", ["time"]),
   ("radar_antenna_gain_h", []),
   ("radar_antenna_gain_v", []),
   ("radar_beam_width_h", []),
   ("radar_beam_width_v", []),
   ("radar_reciever_bandwidth", []),
   ("radar_measured_transmit_power_h", ["time"]),
   ("radar_measured_transmit_power_v", ["time"]),
   ("radar_rx_bandwidth", []),
   ("measured_transmit_power_v", ["time"]),
   ("measured_transmit_power_h", ["time"])]

/-- `_find_all_meta_group_vars`: names of all variables whose `meta_group`
attribute equals the given group name. -/
def _find_all_meta_group_vars (ncvars : List (String × NCVar)) (meta_group_name : String) :
    List String :=
  (ncvars.filter (fun kv =>
    decide (alookup kv.2.attrs "meta_group" = some (Attr.s meta_group_name)))).map
    (fun kv => kv.1)

/-- `_ncvar_to_dict`: attributes plus data (the scalar-to-1-element-array
normalisation is the identity in this model, data being stored as lists). -/
def _ncvar_to_dict (v : NCVar) : Dict := { attrs := v.attrs, data := v.data }

/-- Row-major materialisation of the (nrays × maxgates) grid built by
`_stream_to_2d`. -/
def materialize2d (g : ℕ → ℕ → ℚ) (nrays maxgates : ℕ) : List ℚ :=
  (List.range nrays).flatMap (fun r => (List.range maxgates).map (fun c => g r c))

/-- `_stream_ncvar_to_dict`: attributes plus the unpacked dense 2-D data. -/
def _stream_ncvar_to_dict (v : NCVar) (sweeps sweepe ray_len : List ℕ)
    (maxgates nrays : ℕ) (ray_start_index : List ℕ) : Dict :=
  let d : List ℚ := match v.data with
    | NCData.num l => l
    | NCData.str _ => []
  { attrs := v.attrs,
    data := NCData.num (materialize2d
      (_stream_to_2d
        { data := d, sweeps := sweeps, sweepe := sweepe, ray_len := ray_len,
          maxgates := maxgates, nrays := nrays, ray_start_index := ray_start_index })
      nrays maxgates) }

/-- Integer index extraction from a stored numeric value. -/
def qToNat (q : ℚ) : ℕ := q.num.toNat

/-- Numeric payload of a variable, failing on character data. -/
def numData : NCData → Option (List ℚ)
  | NCData.num l => some l
  | NCData.str _ => none

/-- The field-name policy parameters of the read entry point: the translation
mapping (`field_names`, entries may map to nothing), the "use on-disk names"
override, and the exclusion set. -/
structure ReadParams where
  field_names : List (String × Option String)
  file_field_names : Bool
  exclude_fields : Option (List String)

/-- The reader's direct exclusion test
(`exclude_fields is not None and key in exclude_fields`). -/
def isExcluded (p : ReadParams) (key : String) : Bool :=
  match p.exclude_fields with
  | some ex => decide (key ∈ ex)
  | none => false

/-- Modelled from the spec: `FileMetadata.get_field_name` (pyart.config, which
is not under src/). Per the read entry point contract the exclusion set is
applied to the on-disk field name ahead of the naming parameters; with
`file_field_names` set the on-disk name is returned verbatim; otherwise the
translation mapping applies, with absent entries and entries mapping to `none`
both yielding no translated name. -/
def get_field_name (p : ReadParams) (key : String) : Option String :=
  if isExcluded p key then none
  else if p.file_field_names then some key
  else match alookup p.field_names key with
    | some (some v) => some v
    | _ => none

/-- The field-collection loop shared by the uniform and the stream branch of
the reader: apply the naming policy, skip excluded fields, store the converted
dictionary under the resulting name. -/
def buildFields (p : ReadParams) (conv : NCVar → Dict)
    (keys : List (String × NCVar)) : List (String × Dict) :=
  keys.foldl (fun fields kv =>
    match get_field_name p kv.1 with
    | some name => aset fields name (conv kv.2)
    | none => if isExcluded p kv.1 then fields else aset fields kv.1 (conv kv.2)) []

/-- The default reader parameters (`field_names=None`, `file_field_names=False`,
`exclude_fields=None`), the absent translation mapping modelled as empty. -/
def defaultParams : ReadParams :=
  { field_names := [], file_field_names := false, exclude_fields := none }

/-- The instrument-parameters section of the reader: catalog names present in
the file, collected into a mapping, the empty mapping replaced by `none`. -/
def instParamsOf (f : NCFile) : Option (List (String × Dict)) :=
  let l := _INSTRUMENT_PARAMS_DIMS.filterMap
    (fun kd => (alookup f.vars kd.1).map (fun v => (kd.1, _ncvar_to_dict v)))
  if l = [] then none else some l

/-- The radar-calibration section of the reader: every variable tagged with
`meta_group = "radar_calibration"`, collected into a mapping (with no
empty-to-None conversion). -/
def calibOf (f : NCFile) : List (String × Dict) :=
  (_find_all_meta_group_vars f.vars "radar_calibration").filterMap
    (fun k => (alookup f.vars k).map (fun v => (k, _ncvar_to_dict v)))

/-- One step of the reader's global-variable loop: a present variable must hold
character data and its first string is stored, an absent one contributes its
fixed default. -/
def readGlobalVar (f : NCFile) (metadata : List (String × Attr)) (k dflt : String) :
    Option (List (String × Attr)) :=
  match alookup f.vars k with
  | some v => (match v.data with
      | NCData.str (s :: _) => some (aset metadata k (Attr.s s))
      | _ => none)
  | none => some (aset metadata k (Attr.s dflt))

/-- The in-memory radar-volume record (the `Radar` object as consumed and
produced by this module; the derived scalars `ngates`/`nsweeps` are the lengths
of the range and sweep_number coordinate arrays). -/
structure Radar where
  time : Dict
  range : Dict
  fields : List (String × Dict)
  metadata : List (String × Attr)
  scan_type : String
  latitude : Dict
  longitude : Dict
  altitude : Dict
  sweep_number : Dict
  sweep_mode : Dict
  fixed_angle : Dict
  sweep_start_ray_index : Dict
  sweep_end_ray_index : Dict
  azimuth : Dict
  elevation : Dict
  instrument_parameters : Option (List (String × Dict))
  radar_calibration : Option (List (String × Dict))
  altitude_agl : Option Dict
  scan_rate : Option Dict
  antenna_transition : Option Dict
  target_scan_rate : Option Dict
  rotation : Option Dict
  tilt : Option Dict
  roll : Option Dict
  drift : Option Dict
  heading : Option Dict
  pitch : Option Dict
  georefs_applied : Option Dict
  ngates : ℕ
  nsweeps : ℕ
deriving DecidableEq

/-- The mandatory coordinate, location, sweep-table and pointing variables of
the reader, each looked up directly (absence is a fatal lookup failure). -/
structure ReadCore where
  time : Dict
  range : Dict
  latitude : Dict
  longitude : Dict
  altitude : Dict
  sweep_number : Dict
  sweep_mode : Dict
  fixed_angle : Dict
  sweep_start_ray_index : Dict
  sweep_end_ray_index : Dict
  azimuth : Dict
  elevation : Dict

/-- Read the mandatory variables of `read_cfradial` (sections 4.4, 4.6, 4.7
and 4.8 of the source). -/
def readCoreVars (f : NCFile) : Option ReadCore :=
  Option.bind ((alookup f.vars "time").map _ncvar_to_dict) (fun time =>
  Option.bind ((alookup f.vars "range").map _ncvar_to_dict) (fun _range =>
  Option.bind ((alookup f.vars "latitude").map _ncvar_to_dict) (fun latitude =>
  Option.bind ((alookup f.vars "longitude").map _ncvar_to_dict) (fun longitude =>
  Option.bind ((alookup f.vars "altitude").map _ncvar_to_dict) (fun altitude =>
  Option.bind ((alookup f.vars "sweep_number").map _ncvar_to_dict) (fun sweep_number =>
  Option.bind ((alookup f.vars "sweep_mode").map _ncvar_to_dict) (fun sweep_mode =>
  Option.bind ((alookup f.vars "fixed_angle").map _ncvar_to_dict) (fun fixed_angle =>
  Option.bind ((alookup f.vars "sweep_start_ray_index").map _ncvar_to_dict)
    (fun sweep_start_ray_index =>
  Option.bind ((alookup f.vars "sweep_end_ray_index").map _ncvar_to_dict)
    (fun sweep_end_ray_index =>
  Option.bind ((alookup f.vars "azimuth").map _ncvar_to_dict) (fun azimuth =>
  Option.bind ((alookup f.vars "elevation").map _ncvar_to_dict) (fun elevation =>
  some (ReadCore.mk time _range latitude longitude altitude sweep_number sweep_mode
    fixed_angle sweep_start_ray_index sweep_end_ray_index azimuth elevation)))))))))))))

/-- The metadata assembly of the reader: all global attributes, then the
`volume_number` global variable (default 0), then the three platform/instrument
global variables with their fixed defaults. -/
def readMetadataOf (f : NCFile) : Option (List (String × Attr)) :=
  Option.bind (match alookup f.vars "volume_number" with
    | some v => (match v.data with
        | NCData.num [x] => some (aset f.gattrs "volume_number" (Attr.n x))
        | _ => none)
    | none => some (aset f.gattrs "volume_number" (Attr.n 0))) (fun metadata1 =>
  Option.bind (readGlobalVar f metadata1 "platform_type" "fixed") (fun metadata2 =>
  Option.bind (readGlobalVar f metadata2 "instrument_type" "radar") (fun metadata3 =>
  readGlobalVar f metadata3 "primary_axis" "axis_z")))

/-- The ~11 optional variables of the reader, each present-or-`none`. -/
structure OptVars where
  altitude_agl : Option Dict
  target_scan_rate : Option Dict
  scan_rate : Option Dict
  antenna_transition : Option Dict
  rotation : Option Dict
  tilt : Option Dict
  roll : Option Dict
  drift : Option Dict
  heading : Option Dict
  pitch : Option Dict
  georefs_applied : Option Dict

/-- Collect the optional variables (`if name in ncvars` probes). -/
def optVarsOf (f : NCFile) : OptVars :=
  OptVars.mk
    ((alookup f.vars "altitude_agl").map _ncvar_to_dict)
    ((alookup f.vars "target_scan_rate").map _ncvar_to_dict)
    ((alookup f.vars "scan_rate").map _ncvar_to_dict)
    ((alookup f.vars "antenna_transition").map _ncvar_to_dict)
    ((alookup f.vars "rotation").map _ncvar_to_dict)
    ((alookup f.vars "tilt").map _ncvar_to_dict)
    ((alookup f.vars "roll").map _ncvar_to_dict)
    ((alookup f.vars "drift").map _ncvar_to_dict)
    ((alookup f.vars "heading").map _ncvar_to_dict)
    ((alookup f.vars "pitch").map _ncvar_to_dict)
    ((alookup f.vars "georefs_applied").map _ncvar_to_dict)

/-- The stream (ragged) field branch of the reader: total stored gate count
from the last `ray_start_index` plus the last `ray_n_gates`; fields are the
1-D variables of that length, unpacked via the ray-reshape algorithm. -/
def streamFieldsOf (f : NCFile) (p : ReadParams) (rsiVar : NCVar) (core : ReadCore) :
    Option (List (String × Dict)) :=
  Option.bind (alookup f.vars "ray_n_gates") (fun rngVar =>
  Option.bind (numData rsiVar.data) (fun rsiQ =>
  Option.bind (numData rngVar.data) (fun rngQ =>
  Option.bind rsiQ.getLast? (fun rsiLast =>
  Option.bind rngQ.getLast? (fun rngLast =>
  Option.bind (numData core.sweep_start_ray_index.data) (fun sweepsQ =>
  Option.bind (numData core.sweep_end_ray_index.data) (fun sweepeQ =>
  some (buildFields p
    (fun v => _stream_ncvar_to_dict v (sweepsQ.map qToNat) (sweepeQ.map qToNat)
      (rngQ.map qToNat) (dataLen core.range.data) (dataLen core.time.data)
      (rsiQ.map qToNat))
    (f.vars.filter (fun kv =>
      decide (kv.2.dims.length = 1 ∧
        dataLen kv.2.data = qToNat (rsiLast + rngLast))))))))))))

/-- Field extraction: the uniform layout (every variable with dimensions
`('time', 'range')`) when `ray_start_index` is absent, the stream layout
otherwise. -/
def fieldsOf (f : NCFile) (p : ReadParams) (core : ReadCore) :
    Option (List (String × Dict)) :=
  match alookup f.vars "ray_start_index" with
  | none => some (buildFields p _ncvar_to_dict
      (f.vars.filter (fun kv => decide (kv.2.dims = ["time", "range"]))))
  | some rsiVar => streamFieldsOf f p rsiVar core

/-- `read_cfradial`: read a CF/Radial file into a radar-volume record.
Mandatory variables are looked up directly (absence fails the read); optional
variables contribute `none` when absent; the scan type is derived from the
first sweep-mode string; fields are collected from the uniform or the stream
layout depending on the presence of `ray_start_index`; instrument parameters
are the catalog names present in the file (`none` if that set is empty);
radar calibration is the mapping of `meta_group = "radar_calibration"`
variables, with no empty-to-None conversion. -/
def read_cfradial (f : NCFile) (p : ReadParams) : Option Radar :=
  Option.bind (readMetadataOf f) (fun metadata =>
  Option.bind (readCoreVars f) (fun core =>
  Option.bind (match core.sweep_mode.data with
    | NCData.str (m :: _) => some m
    | _ => none) (fun mode =>
  Option.bind (fieldsOf f p core) (fun fields =>
  some (Radar.mk core.time core.range fields metadata (scanTypeOfMode mode)
    core.latitude core.longitude core.altitude core.sweep_number core.sweep_mode
    core.fixed_angle core.sweep_start_ray_index core.sweep_end_ray_index
    core.azimuth core.elevation (instParamsOf f) (some (calibOf f))
    (optVarsOf f).altitude_agl (optVarsOf f).scan_rate
    (optVarsOf f).antenna_transition (optVarsOf f).target_scan_rate
    (optVarsOf f).rotation (optVarsOf f).tilt (optVarsOf f).roll
    (optVarsOf f).drift (optVarsOf f).heading (optVarsOf f).pitch
    (optVarsOf f).georefs_applied
    (dataLen core.range.data) (dataLen core.sweep_number.data))))))

/-- Environment of a write: the invoking user, the host name and the current
local timestamp, the inputs of the synthesized provenance string. -/
structure WriteEnv where
  user : String
  node : String
  timeStr : String

/-- The synthesized history string
`'created by %s on %s at %s using Py-ART' % (user, node, time_str)`. -/
def synthHistory (env : WriteEnv) : String :=
  "created by " ++ env.user ++ " on " ++ env.node ++ " at " ++ env.timeStr ++
    " using Py-ART"

/-- The six-plus-one reserved keys removed from the metadata copy before the
global attributes are written. -/
def globalVariableNames : List String :=
  ["volume_number", "platform_type", "instrument_type", "primary_axis",
   "time_coverage_start", "time_coverage_end", "time_reference"]

/-- The history attribute: the metadata entry when present (popped from the
copy), the synthesized provenance string otherwise. -/
def historyOf (env : WriteEnv) (radar : Radar) : Attr :=
  match alookup (radar.metadata.filter
      (fun q => decide (¬ q.1 ∈ globalVariableNames))) "history" with
  | some h => h
  | none => Attr.s (synthHistory env)

/-- The global attributes written by `write_cfradial`: the metadata copy minus
the reserved keys and minus `history`, a `Conventions` attribute if absent, a
`field_names` attribute (comma-joined field list) if absent, and `history`
set last (ARM ordering requirement). -/
def gattrsOf (env : WriteEnv) (radar : Radar) : List (String × Attr) :=
  let mc := (radar.metadata.filter
      (fun q => decide (¬ q.1 ∈ globalVariableNames))).filter
      (fun q => decide (q.1 ≠ "history"))
  let g2 := if mc.any (fun q => decide (q.1 = "Conventions")) then mc
    else mc ++ [("Conventions", Attr.s "CF/Radial")]
  let g3 := if g2.any (fun q => decide (q.1 = "field_names")) then g2
    else g2 ++ [("field_names",
      Attr.s (String.intercalate ", " (radar.fields.map (fun q => q.1))))]
  aset g3 "history" (historyOf env radar)

/-- Modelled from the spec: `netCDF4.num2date` composed with
`datetime.isoformat` (the external date library), producing the timestamp
string for a time value and a units string; its exact format is external to
this module and no claim depends on it. -/
def num2dateIso (t : ℚ) (units : String) : String :=
  toString t ++ " (" ++ units ++ ")"

/-- Modelled from the spec: seconds since the Unix epoch of the first time
value (the ARM `base_time`); the calendar arithmetic is external and no claim
depends on it. -/
def epochSeconds (t : ℚ) (_units : String) : ℚ := t

/-- The Python slice `s[-n:]`: the last `n` characters, the whole string when
it is no longer than `n`. -/
def strLastN (n : ℕ) (s : String) : String :=
  String.mk (s.toList.drop (s.toList.length - n))

/-- One step of the maximum-string-length computation over the three string
instrument parameters (`len(radar.instrument_parameters[k]['data'][0])`). -/
def ipStrLenFold (radar : Radar) (k : String) (m : ℕ) : Option ℕ :=
  match radar.instrument_parameters with
  | some ip => (match alookup ip k with
      | some d => (match d.data with
          | NCData.str (s :: _) => some (max m s.length)
          | _ => none)
      | none => some m)
  | none => some m

/-- The `string_length` dimension size: the maximum of the first sweep-mode
string's length and the three string instrument parameters, floored at 32. -/
def strLenOf (radar : Radar) : Option ℕ :=
  Option.bind (match radar.sweep_mode.data with
    | NCData.str (s :: _) => some s.length
    | _ => none) (fun len0 =>
  Option.bind (ipStrLenFold radar "follow_mode" len0) (fun len1 =>
  Option.bind (ipStrLenFold radar "prt_mode" len1) (fun len2 =>
  Option.bind (ipStrLenFold radar "polarization_mode" len2) (fun len3 =>
  some (max len3 32)))))

/-- The ARM `base_time`/`time_offset` pair, written only on request; both need
the first time value and the time units string. -/
def armVarsOf (radar : Radar) (arm_time_variables : Bool) :
    Option (List (String × NCVar)) :=
  if arm_time_variables then
    Option.bind (match radar.time.data with
      | NCData.num (x :: _) => some x
      | _ => none) (fun t0 =>
    Option.bind (match alookup radar.time.attrs "units" with
      | some (Attr.s u) => some u
      | _ => none) (fun units =>
    let base_time : Dict :=
      { attrs := [("string", Attr.s (num2dateIso t0 units)),
                  ("units", Attr.s "seconds since 1970-1-1 0:00:00 0:00"),
                  ("ancillary_variables", Attr.s "time_offset"),
                  ("long_name", Attr.s "Base time in Epoch")],
        data := NCData.num [epochSeconds t0 units] }
    let time_offset : Dict :=
      { attrs := [("long_name", Attr.s "Time offset from base_time"),
                  ("units", Attr.s ((units.replace "T" " ").replace "Z" "")),
                  ("ancillary_variables", Attr.s "time_offset"),
                  ("calendar", Attr.s "gregorian")],
        data := radar.time.data }
    some [("base_time", _create_ncvar base_time []),
          ("time_offset", _create_ncvar time_offset ["time"])]))
  else some []

/-- The four mandatory coordinate/pointing variables. -/
def stdVarsOf (radar : Radar) : List (String × NCVar) :=
  [("time", _create_ncvar radar.time ["time"]),
   ("range", _create_ncvar radar.range ["range"]),
   ("azimuth", _create_ncvar radar.azimuth ["time"]),
   ("elevation", _create_ncvar radar.elevation ["time"])]

/-- Optional sensor-pointing variables. -/
def pointingVarsOf (radar : Radar) : List (String × NCVar) :=
  (match radar.scan_rate with
    | some d => [("scan_rate", _create_ncvar d ["time"])]
    | none => []) ++
  (match radar.antenna_transition with
    | some d => [("antenna_transition", _create_ncvar d ["time"])]
    | none => [])

/-- The field variables, each with dimensions `('time', 'range')`. -/
def fieldVarsOf (radar : Radar) : List (String × NCVar) :=
  radar.fields.map (fun kd => (kd.1, _create_ncvar kd.2 ["time", "range"]))

/-- The sweep-table variables. -/
def sweepVarsOf (radar : Radar) : List (String × NCVar) :=
  [("sweep_number", _create_ncvar radar.sweep_number ["sweep"]),
   ("fixed_angle", _create_ncvar radar.fixed_angle ["sweep"]),
   ("sweep_start_ray_index", _create_ncvar radar.sweep_start_ray_index ["sweep"]),
   ("sweep_end_ray_index", _create_ncvar radar.sweep_end_ray_index ["sweep"]),
   ("sweep_mode", _create_ncvar radar.sweep_mode ["sweep", "string_length"])] ++
  (match radar.target_scan_rate with
    | some d => [("target_scan_rate", _create_ncvar d ["sweep"])]
    | none => [])

/-- The `frequency` dimension, declared when the instrument parameters hold a
`frequency` entry. -/
def freqDimsOf (radar : Radar) : List (String × Option ℕ) :=
  match radar.instrument_parameters with
  | some ip => (match alookup ip "frequency" with
      | some d => [("frequency", some (dataLen d.data))]
      | none => [])
  | none => []

/-- The instrument-parameter variables, dimensions looked up in the fixed
catalog with dimensionless default. -/
def ipVarsOf (radar : Radar) : List (String × NCVar) :=
  match radar.instrument_parameters with
  | some ip => ip.map (fun kd =>
      (kd.1, _create_ncvar kd.2 ((alookup _INSTRUMENT_PARAMS_DIMS kd.1).getD [])))
  | none => []

/-- The radar-calibration section: the `r_calib` dimension is sized from the
first non-index/non-time entry (`[...][0]`, an error when no such entry
exists); `r_calib_index` is per-ray, `r_calib_time` per-row strings,
everything else per-row. -/
def calibPartOf (radar : Radar) :
    Option (List (String × Option ℕ) × List (String × NCVar)) :=
  match radar.radar_calibration with
  | some rc =>
      (match (rc.filter
          (fun kd => decide (¬ kd.1 ∈ ["r_calib_index", "r_calib_time"]))).map
          (fun kd => dataLen kd.2.data) with
       | [] => none
       | size :: _ => some
           ([("r_calib", some size)],
            rc.map (fun kd => (kd.1, _create_ncvar kd.2
              (if kd.1 = "r_calib_index" then ["time"]
               else if kd.1 = "r_calib_time" then ["r_calib", "string_length"]
               else ["r_calib"])))))
  | none => some ([], [])

/-- Location variables are scalar for a stationary platform (single-element
latitude) and per-ray for a moving platform. -/
def locDimsOf (radar : Radar) : List String :=
  if dataLen radar.latitude.data = 1 then [] else ["time"]

/-- The location variables. -/
def locVarsOf (radar : Radar) : List (String × NCVar) :=
  [("latitude", _create_ncvar radar.latitude (locDimsOf radar)),
   ("longitude", _create_ncvar radar.longitude (locDimsOf radar)),
   ("altitude", _create_ncvar radar.altitude (locDimsOf radar))] ++
  (match radar.altitude_agl with
    | some d => [("altitude_agl", _create_ncvar d (locDimsOf radar))]
    | none => [])

/-- The first time value, the last time value and the time units string,
needed by the time-coverage and time-reference sections. -/
def timeBounds (radar : Radar) : Option (ℚ × ℚ × String) :=
  Option.bind (match radar.time.data with
    | NCData.num (x :: _) => some x
    | _ => none) (fun t0 =>
  Option.bind (match radar.time.data with
    | NCData.num l => l.getLast?
    | _ => none) (fun tLast =>
  Option.bind (match alookup radar.time.attrs "units" with
    | some (Attr.s u) => some u
    | _ => none) (fun units =>
  some (t0, tLast, units))))

/-- The `time_coverage_start`/`time_coverage_end` variables. -/
def tcVarsOf (t0 tLast : ℚ) (units : String) : List (String × NCVar) :=
  [("time_coverage_start", _create_ncvar
      { attrs := [("long_name", Attr.s "UTC time of first ray in the file"),
                  ("units", Attr.s "unitless")],
        data := NCData.str [num2dateIso t0 units ++ "Z"] } ["string_length"]),
   ("time_coverage_end", _create_ncvar
      { attrs := [("long_name", Attr.s "UTC time of last ray in the file"),
                  ("units", Attr.s "unitless")],
        data := NCData.str [num2dateIso tLast units ++ "Z"] } ["string_length"])]

/-- The time-reference resolution: the caller's tri-state, with `None`
resolved to whether the first time value is nonzero. -/
def timeRefFlag (time_reference : Option Bool) (t0 : ℚ) : Bool :=
  match time_reference with
  | some b => b
  | none => if t0 = 0 then false else true

/-- The `time_reference` variable, whose data is
`np.array(radar.time['units'][-20:], dtype='S')`. -/
def trVarsOf (flag : Bool) (units : String) : List (String × NCVar) :=
  if flag then
    [("time_reference", _create_ncvar
      { attrs := [("long_name", Attr.s "UTC time reference"),
                  ("units", Attr.s "unitless")],
        data := NCData.str [strLastN 20 units] } ["string_length"])]
  else []

/-- The `volume_number` global variable (`int32`, metadata value or 0); a
non-numeric metadata entry fails the array construction. -/
def volVarsOf (radar : Radar) : Option (List (String × NCVar)) :=
  Option.bind (match alookup radar.metadata "volume_number" with
    | some (Attr.n v) => some [v]
    | some (Attr.s _) => none
    | none => some [(0 : ℚ)]) (fun volData =>
  some [("volume_number", _create_ncvar
      { attrs := [("long_name", Attr.s "Volume number"), ("units", Attr.s "unitless")],
        data := NCData.num volData } [])])

/-- One of the optional `platform_type`/`instrument_type`/`primary_axis`
global variables, written when present in metadata. -/
def metaStrVarOf (radar : Radar) (key longName : String) : List (String × NCVar) :=
  match alookup radar.metadata key with
  | some (Attr.s s) => [(key, _create_ncvar
      { attrs := [("long_name", Attr.s longName)], data := NCData.str [s] }
      ["string_length"])]
  | some (Attr.n v) => [(key, _create_ncvar
      { attrs := [("long_name", Attr.s longName)], data := NCData.num [v] }
      ["string_length"])]
  | none => []

/-- The seven optional platform-attitude angle variables. -/
def attVarsOf (radar : Radar) : List (String × NCVar) :=
  (match radar.rotation with
    | some d => [("rotation", _create_ncvar d ["time"])]
    | none => []) ++
  (match radar.tilt with
    | some d => [("tilt", _create_ncvar d ["time"])]
    | none => []) ++
  (match radar.roll with
    | some d => [("roll", _create_ncvar d ["time"])]
    | none => []) ++
  (match radar.drift with
    | some d => [("drift", _create_ncvar d ["time"])]
    | none => []) ++
  (match radar.heading with
    | some d => [("heading", _create_ncvar d ["time"])]
    | none => []) ++
  (match radar.pitch with
    | some d => [("pitch", _create_ncvar d ["time"])]
    | none => []) ++
  (match radar.georefs_applied with
    | some d => [("georefs_applied", _create_ncvar d ["time"])]
    | none => [])

/-- The full variable list of a write, in the mandated emission order. -/
def allVarsOf (radar : Radar) (time_reference : Option Bool)
    (armVars calibVars : List (String × NCVar)) (tb : ℚ × ℚ × String)
    (volVars : List (String × NCVar)) : List (String × NCVar) :=
  armVars ++ stdVarsOf radar ++ pointingVarsOf radar ++
    fieldVarsOf radar ++ sweepVarsOf radar ++ ipVarsOf radar ++ calibVars ++
    locVarsOf radar ++ tcVarsOf tb.1 tb.2.1 tb.2.2 ++
    trVarsOf (timeRefFlag time_reference tb.1) tb.2.2 ++ volVars ++
    metaStrVarOf radar "platform_type" "Platform type" ++
    metaStrVarOf radar "instrument_type" "Instrument type" ++
    metaStrVarOf radar "primary_axis" "Primary axis" ++ attVarsOf radar

/-- The dimension table of a write. -/
def allDimsOf (radar : Radar) (str_len : ℕ) (calibDims : List (String × Option ℕ)) :
    List (String × Option ℕ) :=
  [("time", none), ("range", some radar.ngates), ("sweep", some radar.nsweeps),
   ("string_length", some str_len)] ++ freqDimsOf radar ++ calibDims

/-- `write_cfradial`: serialise a radar-volume record to a CF/Radial file.
Dimensions and global attributes are computed first, then every section's
variables are emitted in the mandated order; any error (non-string sweep mode,
malformed instrument-parameter strings, a calibration mapping without a
sizing entry, a non-numeric `volume_number`, a missing first/last time value
or units string, a duplicate variable name at creation) aborts the write with
no finalized file. -/
def write_cfradial (env : WriteEnv) (radar : Radar) (time_reference : Option Bool)
    (arm_time_variables : Bool) : Option NCFile :=
  Option.bind (strLenOf radar) (fun str_len =>
  Option.bind (armVarsOf radar arm_time_variables) (fun armVars =>
  Option.bind (calibPartOf radar) (fun calib =>
  Option.bind (timeBounds radar) (fun tb =>
  Option.bind (volVarsOf radar) (fun volVars =>
  if ((allVarsOf radar time_reference armVars calib.2 tb volVars).map Prod.fst).Nodup then
    some (NCFile.mk (allDimsOf radar str_len calib.1) (gattrsOf env radar)
      (allVarsOf radar time_reference armVars calib.2 tb volVars))
  else none)))))

theorem buildFields_filter_excluded (p : ReadParams) (conv : NCVar → Dict)
    (ex : List String) (hex : p.exclude_fields = some ex) :
    ∀ (keys : List (String × NCVar)) (acc : List (String × Dict)),
      keys.foldl (fun fields kv =>
        match get_field_name p kv.1 with
        | some name => aset fields name (conv kv.2)
        | none => if isExcluded p kv.1 then fields
            else aset fields kv.1 (conv kv.2)) acc =
      (keys.filter (fun kv => decide (¬ kv.1 ∈ ex))).foldl (fun fields kv =>
        match get_field_name p kv.1 with
        | some name => aset fields name (conv kv.2)
        | none => if isExcluded p kv.1 then fields
            else aset fields kv.1 (conv kv.2)) acc := by
  intro keys
  induction keys with
  | nil => intro acc; rfl
  | cons kv t ih =>
      intro acc
      by_cases hm : kv.1 ∈ ex
      · have hexc : isExcluded p kv.1 = true := by
          simp [isExcluded, hex, hm]
        have hgfn : get_field_name p kv.1 = none := by
          unfold get_field_name
          rw [if_pos hexc]
        have hstep : (match get_field_name p kv.1 with
            | some name => aset acc name (conv kv.2)
            | none => if isExcluded p kv.1 then acc
                else aset acc kv.1 (conv kv.2)) = acc := by
          rw [hgfn, hexc]
          simp
        have hfil : (kv :: t).filter (fun kv => decide (¬ kv.1 ∈ ex)) =
            t.filter (fun kv => decide (¬ kv.1 ∈ ex)) := by
          simp [List.filter_cons, hm]
        rw [hfil, List.foldl_cons, hstep]
        exact ih acc
      · have hfil : (kv :: t).filter (fun kv => decide (¬ kv.1 ∈ ex)) =
            kv :: t.filter (fun kv => decide (¬ kv.1 ∈ ex)) := by
          simp [List.filter_cons, hm]
        rw [hfil, List.foldl_cons, List.foldl_cons]
        exact ih _

/-- C6: a field variable present in the file but named in the exclusion set
never contributes an entry to the field mapping built by the reader's
collection loop (in either layout branch, `conv` being the branch's dictionary
conversion), even when the field-name translation mapping also has an entry
for it: the excluded variables can be removed from the input without changing
the result. -/
theorem c6_field_exclusion (p : ReadParams) (ex : List String) (conv : NCVar → Dict)
    (keys : List (String × NCVar)) (hex : p.exclude_fields = some ex) :
    buildFields p conv keys =
      buildFields p conv (keys.filter (fun kv => decide (¬ kv.1 ∈ ex))) := by
  unfold buildFields
  exact buildFields_filter_excluded p conv ex hex keys []

theorem c6_field_exclusion_witness :
    (buildFields
      { field_names := [("DZ", some "reflectivity")], file_field_names := false,
        exclude_fields := some ["DZ"] }
      _ncvar_to_dict
      [("DZ", NCVar.mk ["time", "range"] [] (NCData.num [1, 2])),
       ("VR", NCVar.mk ["time", "range"] [] (NCData.num [3, 4]))] =
    buildFields
      { field_names := [("DZ", some "reflectivity")], file_field_names := false,
        exclude_fields := some ["DZ"] }
      _ncvar_to_dict
      ([("DZ", NCVar.mk ["time", "range"] [] (NCData.num [1, 2])),
        ("VR", NCVar.mk ["time", "range"] [] (NCData.num [3, 4]))].filter
        (fun kv => decide (¬ kv.1 ∈ ["DZ"])))) ∧
    buildFields
      { field_names := [("DZ", some "reflectivity")], file_field_names := false,
        exclude_fields := some ["DZ"] }
      _ncvar_to_dict
      [("DZ", NCVar.mk ["time", "range"] [] (NCData.num [1, 2])),
       ("VR", NCVar.mk ["time", "range"] [] (NCData.num [3, 4]))] =
      [("VR", Dict.mk [] (NCData.num [3, 4]))] :=
  ⟨c6_field_exclusion _ ["DZ"] _ncvar_to_dict _ rfl, by decide⟩

theorem option_bind_const_none {α β : Type} (x : Option α) :
    Option.bind x (fun _ => (none : Option β)) = none := by
  cases x <;> rfl

theorem write_components (env : WriteEnv) (radar : Radar) (tr : Option Bool) (arm : Bool)
    (F : NCFile) (hw : write_cfradial env radar tr arm = some F) :
    ∃ str_len armVars calib tb volVars,
      strLenOf radar = some str_len ∧
      armVarsOf radar arm = some armVars ∧
      calibPartOf radar = some calib ∧
      timeBounds radar = some tb ∧
      volVarsOf radar = some volVars ∧
      ((allVarsOf radar tr armVars calib.2 tb volVars).map Prod.fst).Nodup ∧
      F = NCFile.mk (allDimsOf radar str_len calib.1) (gattrsOf env radar)
        (allVarsOf radar tr armVars calib.2 tb volVars) := by
  unfold write_cfradial at hw
  simp only [Option.bind_eq_some] at hw
  obtain ⟨str_len, h1, hw⟩ := hw
  obtain ⟨armVars, h2, hw⟩ := hw
  obtain ⟨calib, h3, hw⟩ := hw
  obtain ⟨tb, h4, hw⟩ := hw
  obtain ⟨volVars, h5, hw⟩ := hw
  split at hw
  · injection hw with hF
    exact ⟨str_len, armVars, calib, tb, volVars, h1, h2, h3, h4, h5, by assumption, hF.symm⟩
  · exact absurd hw (by simp)

/-- C7: whenever the record's radar_calibration is set but every entry is
`r_calib_index` or `r_calib_time`, the list comprehension sizing the `r_calib`
dimension is empty, its `[0]` indexing raises, and the write aborts with no
finalized file (here: `write_cfradial` returns `none`, with no fallback). -/
theorem c7_calibration_error (env : WriteEnv) (radar : Radar) (tr : Option Bool)
    (arm : Bool) (rc : List (String × Dict))
    (hcal : radar.radar_calibration = some rc)
    (hkeys : ∀ kd ∈ rc, kd.1 ∈ ["r_calib_index", "r_calib_time"]) :
    write_cfradial env radar tr arm = none := by
  have hc : calibPartOf radar = none := by
    have hfil : rc.filter
        (fun kd => decide (¬ kd.1 ∈ ["r_calib_index", "r_calib_time"])) = [] := by
      rw [List.filter_eq_nil_iff]
      intro kd hkd
      simp [hkeys kd hkd]
    simp only [calibPartOf, hcal, hfil, List.map_nil]
  unfold write_cfradial
  rw [hc]
  simp [option_bind_const_none]

/-- A small write environment with known user, host and timestamp. -/
def env0 : WriteEnv := WriteEnv.mk "u" "h" "t"

/-- A minimal radar-volume record with no optional fields set, one field, a
nonzero first time value and a 34-character time units string. -/
def R0 : Radar :=
  Radar.mk
    (Dict.mk [("units", Attr.s "seconds since 1970-01-01T00:00:00Z")] (NCData.num [1, 2]))
    (Dict.mk [] (NCData.num [100, 200, 300]))
    [("reflectivity", Dict.mk
      [("long_name", Attr.s "refl"), ("units", Attr.s "dBZ"), ("_FillValue", Attr.n (-9999))]
      (NCData.num [1, 2, 3, 4, 5, 6]))]
    [("source", Attr.s "test")]
    "ppi"
    (Dict.mk [] (NCData.num [10])) (Dict.mk [] (NCData.num [20]))
    (Dict.mk [] (NCData.num [30]))
    (Dict.mk [] (NCData.num [0]))
    (Dict.mk [] (NCData.str ["azimuth_surveillance"]))
    (Dict.mk [] (NCData.num [0]))
    (Dict.mk [] (NCData.num [0]))
    (Dict.mk [] (NCData.num [1]))
    (Dict.mk [] (NCData.num [0, 1])) (Dict.mk [] (NCData.num [0, 0]))
    none none none none none none none none none none none none none
    3 1

/-- R0 with a radar_calibration mapping holding only an `r_calib_index`
entry. -/
def R1 : Radar :=
  { R0 with radar_calibration := some [("r_calib_index", Dict.mk [] (NCData.num [0, 0]))] }

theorem c7_calibration_error_witness :
    write_cfradial env0 R1 none false = none :=
  c7_calibration_error env0 R1 none false
    [("r_calib_index", Dict.mk [] (NCData.num [0, 0]))] rfl (by decide)

/-- C9 counterexample: with user "u", host "h" and timestamp "t", the history
global attribute synthesized by a write of a record without a metadata history
entry is "created by u on h at t using Py-ART" — not the claimed exact string
"created by u on h at t": the code appends " using Py-ART". -/
theorem c9_history_cex :
    Option.map (fun F => alookup F.gattrs "history")
        (write_cfradial env0 R0 none false) =
      some (some (Attr.s "created by u on h at t using Py-ART")) ∧
    Attr.s "created by u on h at t using Py-ART" ≠ Attr.s "created by u on h at t" := by
  constructor
  · decide
  · decide

/-- C9 (amended): on every successful write the history global attribute is
present; it is the metadata's history entry verbatim when one exists, and
otherwise exactly the synthesized string
"created by <user> on <host> at <timestamp> using Py-ART". -/
theorem c9_history_amended (env : WriteEnv) (radar : Radar) (tr : Option Bool)
    (arm : Bool) (F : NCFile) (hw : write_cfradial env radar tr arm = some F) :
    alookup F.gattrs "history" = some (historyOf env radar) ∧
    (∀ h, alookup radar.metadata "history" = some h → historyOf env radar = h) ∧
    (alookup radar.metadata "history" = none →
      historyOf env radar = Attr.s (synthHistory env)) := by
  obtain ⟨sl, av, cal, tb, vv, h1, h2, h3, h4, h5, hnd, hF⟩ :=
    write_components env radar tr arm F hw
  refine ⟨?_, ?_, ?_⟩
  · rw [hF]
    show alookup (gattrsOf env radar) "history" = some (historyOf env radar)
    unfold gattrsOf
    exact alookup_aset_self _ _ _
  · intro h hh
    unfold historyOf
    rw [alookup_filter_key (fun _ => by simp [globalVariableNames]), hh]
  · intro hh
    unfold historyOf
    rw [alookup_filter_key (fun _ => by simp [globalVariableNames]), hh]

theorem c9_history_amended_witness :
    (∃ F, write_cfradial env0 R0 none false = some F ∧
      alookup F.gattrs "history" = some (historyOf env0 R0)) ∧
    historyOf env0 R0 = Attr.s (synthHistory env0) := by
  obtain ⟨F, hF⟩ : ∃ F, write_cfradial env0 R0 none false = some F := ⟨_, rfl⟩
  exact ⟨⟨F, hF, (c9_history_amended env0 R0 none false F hF).1⟩,
    (c9_history_amended env0 R0 none false F hF).2.2 (by decide)⟩

/-- C10: whenever a successful write emits the `time_reference` variable —
forced by `time_reference=True`, or automatically under the default `None`
because the first time value is nonzero — that variable's data is exactly
`radar.time['units'][-20:]`: the last 20 characters of the record's time units
string, a longer units string being silently truncated from the front. -/
theorem c10_time_reference (env : WriteEnv) (radar : Radar) (tr : Option Bool)
    (arm : Bool) (F : NCFile) (t0 : ℚ) (ts : List ℚ) (u : String)
    (htime : radar.time.data = NCData.num (t0 :: ts))
    (hunits : alookup radar.time.attrs "units" = some (Attr.s u))
    (hflag : tr = some true ∨ (tr = none ∧ ¬ t0 = 0))
    (hw : write_cfradial env radar tr arm = some F) :
    ∃ v, alookup F.vars "time_reference" = some v ∧
      v.data = NCData.str [strLastN 20 u] ∧ v.dims = ["string_length"] := by
  obtain ⟨sl, av, cal, tb, vv, h1, h2, h3, h4, h5, hnd, hF⟩ :=
    write_components env radar tr arm F hw
  obtain ⟨tb1, tb2, tb3⟩ := tb
  obtain ⟨x, hx⟩ : ∃ x, (t0 :: ts).getLast? = some x :=
    ⟨_, List.getLast?_eq_getLast _ (by simp)⟩
  have htb : t0 = tb1 ∧ x = tb2 ∧ u = tb3 := by
    unfold timeBounds at h4
    rw [htime, hunits] at h4
    simp [hx, Prod.ext_iff] at h4
    exact h4
  have hflag' : timeRefFlag tr tb1 = true := by
    rcases hflag with h | ⟨h, h0⟩
    · rw [h]; rfl
    · rw [h]
      unfold timeRefFlag
      rw [← htb.1]
      simp [h0]
  have htr : trVarsOf (timeRefFlag tr (tb1, tb2, tb3).1) (tb1, tb2, tb3).2.2 =
      [("time_reference", _create_ncvar
        (Dict.mk [("long_name", Attr.s "UTC time reference"),
                  ("units", Attr.s "unitless")] (NCData.str [strLastN 20 u]))
        ["string_length"])] := by
    show trVarsOf (timeRefFlag tr tb1) tb3 = _
    rw [hflag', ← htb.2.2]
    rfl
  have hmem : ("time_reference", _create_ncvar
      (Dict.mk [("long_name", Attr.s "UTC time reference"),
                ("units", Attr.s "unitless")] (NCData.str [strLastN 20 u]))
      ["string_length"]) ∈ allVarsOf radar tr av cal.2 (tb1, tb2, tb3) vv := by
    unfold allVarsOf
    rw [htr]
    simp [List.mem_append]
  refine ⟨_create_ncvar
      (Dict.mk [("long_name", Attr.s "UTC time reference"),
                ("units", Attr.s "unitless")] (NCData.str [strLastN 20 u]))
      ["string_length"], ?_, rfl, rfl⟩
  rw [hF]
  show alookup (allVarsOf radar tr av cal.2 (tb1, tb2, tb3) vv) "time_reference" = _
  exact alookup_of_mem_nodup hnd hmem

theorem c10_time_reference_witness :
    ∃ F, write_cfradial env0 R0 none false = some F ∧
      ∃ v, alookup F.vars "time_reference" = some v ∧
        v.data = NCData.str [strLastN 20 "seconds since 1970-01-01T00:00:00Z"] ∧
        v.dims = ["string_length"] := by
  obtain ⟨F, hF⟩ : ∃ F, write_cfradial env0 R0 none false = some F := ⟨_, rfl⟩
  exact ⟨F, hF, c10_time_reference env0 R0 none false F 1 [2]
    "seconds since 1970-01-01T00:00:00Z" rfl rfl (Or.inr ⟨rfl, by decide⟩) hF⟩

/-- A minimal CF/Radial file holding only the mandatory variables: no
instrument parameters and no calibration variables. -/
def F0 : NCFile :=
  NCFile.mk [] []
    [("time", NCVar.mk ["time"]
        [("units", Attr.s "seconds since 1970-01-01T00:00:00Z")] (NCData.num [0, 1])),
     ("range", NCVar.mk ["range"] [] (NCData.num [10, 20])),
     ("latitude", NCVar.mk [] [] (NCData.num [0])),
     ("longitude", NCVar.mk [] [] (NCData.num [0])),
     ("altitude", NCVar.mk [] [] (NCData.num [0])),
     ("sweep_number", NCVar.mk ["sweep"] [] (NCData.num [0])),
     ("sweep_mode", NCVar.mk ["sweep", "string_length"] [] (NCData.str ["sector_scan"])),
     ("fixed_angle", NCVar.mk ["sweep"] [] (NCData.num [0])),
     ("sweep_start_ray_index", NCVar.mk ["sweep"] [] (NCData.num [0])),
     ("sweep_end_ray_index", NCVar.mk ["sweep"] [] (NCData.num [1])),
     ("azimuth", NCVar.mk ["time"] [] (NCData.num [0, 1])),
     ("elevation", NCVar.mk ["time"] [] (NCData.num [0, 0]))]

/-- C5 counterexample: reading a file with no calibration variables yields a
record whose radar_calibration is the EMPTY mapping (`some []`), not `None` —
the reader converts an empty instrument_parameters mapping to `None` but has
no such conversion for radar_calibration, so "neither is ever an empty
mapping" is false. -/
theorem c5_empty_calibration_cex :
    Option.map (fun r => r.radar_calibration) (read_cfradial F0 defaultParams) =
      some (some []) := by decide

/-- C5 (amended): on every successful read, instrument_parameters is either
fully absent (`None`) or a non-empty mapping — never the empty mapping — while
radar_calibration is always a mapping (never `None`), namely the mapping of
`meta_group = "radar_calibration"` variables, which IS empty for a file with
no calibration variables. -/
theorem c5_amended (f : NCFile) (p : ReadParams) (r : Radar)
    (hr : read_cfradial f p = some r) :
    (r.instrument_parameters = none ∨
      ∃ l, r.instrument_parameters = some l ∧ l ≠ []) ∧
    r.radar_calibration = some (calibOf f) := by
  unfold read_cfradial at hr
  simp only [Option.bind_eq_some] at hr
  obtain ⟨md, h1, hr⟩ := hr
  obtain ⟨core, h2, hr⟩ := hr
  obtain ⟨mode, h3, hr⟩ := hr
  obtain ⟨fields, h4, hr⟩ := hr
  injection hr with hr
  constructor
  · rw [← hr]
    show instParamsOf f = none ∨ ∃ l, instParamsOf f = some l ∧ l ≠ []
    by_cases hl : (_INSTRUMENT_PARAMS_DIMS.filterMap
        (fun kd => (alookup f.vars kd.1).map (fun v => (kd.1, _ncvar_to_dict v)))) = []
    · left
      simp [instParamsOf, hl]
    · right
      exact ⟨_, by simp [instParamsOf, hl], hl⟩
  · rw [← hr]

theorem c5_amended_witness :
    ∃ r, read_cfradial F0 defaultParams = some r ∧
      ((r.instrument_parameters = none ∨
          ∃ l, r.instrument_parameters = some l ∧ l ≠ []) ∧
        r.radar_calibration = some (calibOf F0)) := by
  obtain ⟨r, hr⟩ : ∃ r, read_cfradial F0 defaultParams = some r := ⟨_, rfl⟩
  exact ⟨r, hr, c5_amended F0 defaultParams r hr⟩

/-- Variable names the writer emits (or the reader treats specially) for a
record with no optional fields: field names must avoid them for the on-disk
variable table to be well formed. -/
def reservedNames : List String :=
  ["time", "range", "azimuth", "elevation", "scan_rate", "antenna_transition",
   "sweep_number", "fixed_angle", "sweep_start_ray_index", "sweep_end_ray_index",
   "sweep_mode", "target_scan_rate", "latitude", "longitude", "altitude",
   "altitude_agl", "time_coverage_start", "time_coverage_end", "time_reference",
   "volume_number", "platform_type", "instrument_type", "primary_axis",
   "rotation", "tilt", "roll", "drift", "heading", "pitch", "georefs_applied",
   "base_time", "time_offset", "ray_start_index", "ray_n_gates"] ++
  _INSTRUMENT_PARAMS_DIMS.map Prod.fst

/-- The variable table produced by writing a record with no optional fields
set and no reserved metadata entries: the four standard variables, the fields,
the sweep table, the location variables, the time-coverage pair, the optional
time-reference variable and the volume number. -/
def c1Vars (radar : Radar) (tb : ℚ × ℚ × String) (b : Bool) : List (String × NCVar) :=
  [("time", _create_ncvar radar.time ["time"]),
   ("range", _create_ncvar radar.range ["range"]),
   ("azimuth", _create_ncvar radar.azimuth ["time"]),
   ("elevation", _create_ncvar radar.elevation ["time"])] ++
  fieldVarsOf radar ++
  [("sweep_number", _create_ncvar radar.sweep_number ["sweep"]),
   ("fixed_angle", _create_ncvar radar.fixed_angle ["sweep"]),
   ("sweep_start_ray_index", _create_ncvar radar.sweep_start_ray_index ["sweep"]),
   ("sweep_end_ray_index", _create_ncvar radar.sweep_end_ray_index ["sweep"]),
   ("sweep_mode", _create_ncvar radar.sweep_mode ["sweep", "string_length"]),
   ("latitude", _create_ncvar radar.latitude (locDimsOf radar)),
   ("longitude", _create_ncvar radar.longitude (locDimsOf radar)),
   ("altitude", _create_ncvar radar.altitude (locDimsOf radar))] ++
  tcVarsOf tb.1 tb.2.1 tb.2.2 ++ trVarsOf b tb.2.2 ++
  [("volume_number", _create_ncvar
    (Dict.mk [("long_name", Attr.s "Volume number"), ("units", Attr.s "unitless")]
      (NCData.num [0])) [])]

theorem gfn_default (k : String) : get_field_name defaultParams k = none := by
  simp [get_field_name, isExcluded, defaultParams, alookup]

theorem isExcluded_default (k : String) : isExcluded defaultParams k = false := rfl

theorem buildFields_default_aux (conv : NCVar → Dict) :
    ∀ (l : List (String × NCVar)) (acc : List (String × Dict)),
      (l.map Prod.fst).Nodup →
      (∀ q ∈ acc, ∀ k ∈ l.map Prod.fst, q.1 ≠ k) →
      l.foldl (fun fields kv =>
        match get_field_name defaultParams kv.1 with
        | some name => aset fields name (conv kv.2)
        | none => if isExcluded defaultParams kv.1 then fields
            else aset fields kv.1 (conv kv.2)) acc =
      acc ++ l.map (fun kv => (kv.1, conv kv.2)) := by
  intro l
  induction l with
  | nil => intro acc _ _; simp
  | cons kv t ih =>
      intro acc hn hd
      obtain ⟨k, v⟩ := kv
      simp only [List.map_cons, List.nodup_cons] at hn
      have hstep : (match get_field_name defaultParams k with
          | some name => aset acc name (conv v)
          | none => if isExcluded defaultParams k then acc
              else aset acc k (conv v)) = acc ++ [(k, conv v)] := by
        rw [gfn_default, isExcluded_default]
        simp only [Bool.false_eq_true, if_neg (by simp : ¬False)]
        apply aset_of_not_mem
        intro q hq
        exact hd q hq k (by simp)
      simp only [List.foldl_cons, hstep]
      rw [ih (acc ++ [(k, conv v)]) hn.2 ?_]
      · simp
      · intro q hq k' hk'
        rcases List.mem_append.mp hq with h | h
        · exact hd q h k' (List.mem_cons_of_mem _ hk')
        · have : q = (k, conv v) := by simpa using h
          subst this
          intro hc
          exact hn.1 (by simpa [← hc] using hk')

theorem buildFields_default (conv : NCVar → Dict) (l : List (String × NCVar))
    (hn : (l.map Prod.fst).Nodup) :
    buildFields defaultParams conv l = l.map (fun kv => (kv.1, conv kv.2)) := by
  unfold buildFields
  rw [buildFields_default_aux conv l [] hn (by simp)]
  simp

theorem alookup_fieldVars_none (radar : Radar) (k : String)
    (hres : ∀ n ∈ radar.fields.map Prod.fst, ¬ n ∈ reservedNames)
    (hk : k ∈ reservedNames) :
    alookup (fieldVarsOf radar) k = none := by
  apply alookup_eq_none
  intro p hp
  obtain ⟨kd, hkd, rfl⟩ := List.mem_map.mp hp
  intro hc
  apply hres kd.1 (List.mem_map_of_mem _ hkd)
  rw [hc]
  exact hk

theorem c1Vars_names (radar : Radar) (tb : ℚ × ℚ × String) (b : Bool) :
    (c1Vars radar tb b).map Prod.fst =
      ["time", "range", "azimuth", "elevation"] ++ (radar.fields.map Prod.fst ++
      (["sweep_number", "fixed_angle", "sweep_start_ray_index", "sweep_end_ray_index",
        "sweep_mode", "latitude", "longitude", "altitude", "time_coverage_start",
        "time_coverage_end"] ++ ((if b then ["time_reference"] else []) ++
       ["volume_number"]))) := by
  cases b <;>
    simp [c1Vars, fieldVarsOf, tcVarsOf, trVarsOf, List.map_append, List.map_map,
      Function.comp]

theorem c1_names_nodup (fnames : List String) (b : Bool)
    (hn : fnames.Nodup) (hf : ∀ n ∈ fnames, ¬ n ∈ reservedNames) :
    (["time", "range", "azimuth", "elevation"] ++ (fnames ++
     (["sweep_number", "fixed_angle", "sweep_start_ray_index", "sweep_end_ray_index",
       "sweep_mode", "latitude", "longitude", "altitude", "time_coverage_start",
       "time_coverage_end"] ++ ((if b then ["time_reference"] else []) ++
      ["volume_number"])))).Nodup := by
  have htail : ∀ a : String,
      a ∈ (["sweep_number", "fixed_angle", "sweep_start_ray_index",
        "sweep_end_ray_index", "sweep_mode", "latitude", "longitude", "altitude",
        "time_coverage_start", "time_coverage_end"] ++
        ((if b then ["time_reference"] else []) ++ ["volume_number"])) →
      a ∈ reservedNames := by
    intro a ha
    cases b <;> simp only [Bool.false_eq_true, if_neg, if_pos] at ha <;>
      fin_cases ha <;> decide
  have hpre : ∀ a : String, a ∈ ["time", "range", "azimuth", "elevation"] →
      a ∈ reservedNames := by
    intro a ha
    fin_cases ha <;> decide
  rw [List.nodup_append]
  refine ⟨by decide, ?_, ?_⟩
  · rw [List.nodup_append]
    refine ⟨hn, ?_, ?_⟩
    · cases b <;> decide
    · intro a ha hmem
      exact hf a ha (htail a hmem)
  · intro a ha hmem
    rcases List.mem_append.mp hmem with h | h
    · exact hf a h (hpre a ha)
    · fin_cases ha <;> cases b <;> exact absurd h (by decide)

/-- Keys of the non-field variables present in the table written for a record
with no optional fields. -/
def c1WrittenNames : List String :=
  ["time", "range", "azimuth", "elevation", "sweep_number", "fixed_angle",
   "sweep_start_ray_index", "sweep_end_ray_index", "sweep_mode", "latitude",
   "longitude", "altitude", "time_coverage_start", "time_coverage_end",
   "time_reference", "volume_number"]

theorem c1Vars_lookup_absent (radar : Radar) (tb : ℚ × ℚ × String) (b : Bool)
    (k : String)
    (hres : ∀ n ∈ radar.fields.map Prod.fst, ¬ n ∈ reservedNames)
    (hk : k ∈ reservedNames) (hk1 : ¬ k ∈ c1WrittenNames) :
    alookup (c1Vars radar tb b) k = none := by
  apply alookup_eq_none
  intro p hp
  simp only [c1Vars, List.mem_append] at hp
  rcases hp with ((((h | h) | h) | h) | h) | h
  · fin_cases h <;>
      (intro he; apply hk1; rw [← he]; simp [c1WrittenNames])
  · obtain ⟨kd, hkd, rfl⟩ := List.mem_map.mp h
    intro hc
    apply hres kd.1 (List.mem_map_of_mem _ hkd)
    rw [hc]
    exact hk
  · fin_cases h <;>
      (intro he; apply hk1; rw [← he]; simp [c1WrittenNames])
  · unfold tcVarsOf at h
    fin_cases h <;>
      (intro he; apply hk1; rw [← he]; simp [c1WrittenNames])
  · unfold trVarsOf at h
    cases b
    · simp at h
    · simp only [if_pos] at h
      fin_cases h
      intro he
      apply hk1
      rw [← he]
      simp [c1WrittenNames]
  · fin_cases h
    intro he
    apply hk1
    rw [← he]
    simp [c1WrittenNames]

theorem locDims_ne (radar : Radar) : locDimsOf radar ≠ ["time", "range"] := by
  unfold locDimsOf
  by_cases h : dataLen radar.latitude.data = 1 <;> simp [h]

theorem c1Vars_filter_fields (radar : Radar) (tb : ℚ × ℚ × String) (b : Bool) :
    (c1Vars radar tb b).filter
      (fun kv => decide (kv.2.dims = ["time", "range"])) = fieldVarsOf radar := by
  unfold c1Vars
  rw [List.filter_append, List.filter_append, List.filter_append,
    List.filter_append, List.filter_append]
  have h1 : ([("time", _create_ncvar radar.time ["time"]),
      ("range", _create_ncvar radar.range ["range"]),
      ("azimuth", _create_ncvar radar.azimuth ["time"]),
      ("elevation", _create_ncvar radar.elevation ["time"])].filter
      (fun kv => decide (kv.2.dims = ["time", "range"]))) = [] := by
    simp [List.filter, create_ncvar_dims]
  have h2 : ((fieldVarsOf radar).filter
      (fun kv => decide (kv.2.dims = ["time", "range"]))) = fieldVarsOf radar := by
    rw [List.filter_eq_self]
    intro p hp
    obtain ⟨kd, hkd, rfl⟩ := List.mem_map.mp hp
    simp [create_ncvar_dims]
  have hld := locDims_ne radar
  have h3 : ([("sweep_number", _create_ncvar radar.sweep_number ["sweep"]),
      ("fixed_angle", _create_ncvar radar.fixed_angle ["sweep"]),
      ("sweep_start_ray_index", _create_ncvar radar.sweep_start_ray_index ["sweep"]),
      ("sweep_end_ray_index", _create_ncvar radar.sweep_end_ray_index ["sweep"]),
      ("sweep_mode", _create_ncvar radar.sweep_mode ["sweep", "string_length"]),
      ("latitude", _create_ncvar radar.latitude (locDimsOf radar)),
      ("longitude", _create_ncvar radar.longitude (locDimsOf radar)),
      ("altitude", _create_ncvar radar.altitude (locDimsOf radar))].filter
      (fun kv => decide (kv.2.dims = ["time", "range"]))) = [] := by
    simp [List.filter, create_ncvar_dims, hld]
  have h4 : ((tcVarsOf tb.1 tb.2.1 tb.2.2).filter
      (fun kv => decide (kv.2.dims = ["time", "range"]))) = [] := by
    simp [tcVarsOf, List.filter, create_ncvar_dims]
  have h5 : ((trVarsOf b tb.2.2).filter
      (fun kv => decide (kv.2.dims = ["time", "range"]))) = [] := by
    cases b <;> simp [trVarsOf, List.filter, create_ncvar_dims]
  have h6 : ([("volume_number", _create_ncvar
      (Dict.mk [("long_name", Attr.s "Volume number"), ("units", Attr.s "unitless")]
        (NCData.num [0])) [])].filter
      (fun kv => decide (kv.2.dims = ["time", "range"]))) = [] := by
    simp [List.filter, create_ncvar_dims]
  rw [h1, h2, h3, h4, h5, h6]
  simp

theorem c1_write (env : WriteEnv) (radar : Radar) (m0 : String) (ms : List String)
    (t0 : ℚ) (ts : List ℚ) (u : String)
    (hip : radar.instrument_parameters = none)
    (hcal : radar.radar_calibration = none)
    (hagl : radar.altitude_agl = none)
    (hsr : radar.scan_rate = none)
    (hat : radar.antenna_transition = none)
    (htsr : radar.target_scan_rate = none)
    (hrot : radar.rotation = none)
    (htlt : radar.tilt = none)
    (hrl : radar.roll = none)
    (hdr : radar.drift = none)
    (hhd : radar.heading = none)
    (hpt : radar.pitch = none)
    (hga : radar.georefs_applied = none)
    (hvol : alookup radar.metadata "volume_number" = none)
    (hplat : alookup radar.metadata "platform_type" = none)
    (hinst : alookup radar.metadata "instrument_type" = none)
    (hax : alookup radar.metadata "primary_axis" = none)
    (hsm : radar.sweep_mode.data = NCData.str (m0 :: ms))
    (htime : radar.time.data = NCData.num (t0 :: ts))
    (hunits : alookup radar.time.attrs "units" = some (Attr.s u))
    (hfn : (radar.fields.map Prod.fst).Nodup)
    (hfr : ∀ n ∈ radar.fields.map Prod.fst, ¬ n ∈ reservedNames) :
    write_cfradial env radar none false = some (NCFile.mk
      (allDimsOf radar (max m0.length 32) [])
      (gattrsOf env radar)
      (c1Vars radar (t0, (t0 :: ts).getLast (List.cons_ne_nil t0 ts), u)
        (timeRefFlag none t0))) := by
  have h1 : strLenOf radar = some (max m0.length 32) := by
    simp [strLenOf, hsm, ipStrLenFold, hip]
  have h3 : calibPartOf radar = some ([], []) := by
    simp [calibPartOf, hcal]
  have htl : (t0 :: ts).getLast? =
      some ((t0 :: ts).getLast (List.cons_ne_nil t0 ts)) :=
    List.getLast?_eq_getLast _ _
  have h4 : timeBounds radar =
      some (t0, (t0 :: ts).getLast (List.cons_ne_nil t0 ts), u) := by
    simp [timeBounds, htime, hunits, htl]
  have h5 : volVarsOf radar = some [("volume_number", _create_ncvar
      (Dict.mk [("long_name", Attr.s "Volume number"), ("units", Attr.s "unitless")]
        (NCData.num [0])) [])] := by
    simp [volVarsOf, hvol]
  have h6 : allVarsOf radar none [] []
      (t0, (t0 :: ts).getLast (List.cons_ne_nil t0 ts), u)
      [("volume_number", _create_ncvar
        (Dict.mk [("long_name", Attr.s "Volume number"), ("units", Attr.s "unitless")]
          (NCData.num [0])) [])] =
      c1Vars radar (t0, (t0 :: ts).getLast (List.cons_ne_nil t0 ts), u)
        (timeRefFlag none t0) := by
    simp [allVarsOf, c1Vars, stdVarsOf, pointingVarsOf, hsr, hat, sweepVarsOf, htsr,
      ipVarsOf, hip, locVarsOf, hagl, metaStrVarOf, hplat, hinst, hax, attVarsOf,
      hrot, htlt, hrl, hdr, hhd, hpt, hga]
  have hnodup : ((c1Vars radar
      (t0, (t0 :: ts).getLast (List.cons_ne_nil t0 ts), u)
      (timeRefFlag none t0)).map Prod.fst).Nodup := by
    rw [c1Vars_names]
    exact c1_names_nodup _ _ hfn hfr
  have h2 : armVarsOf radar false = some [] := rfl
  have h2 : armVarsOf radar false = some [] := rfl
  unfold write_cfradial
  rw [h1, h2, h3, h4, h5]
  rw [Option.some_bind, Option.some_bind, Option.some_bind, Option.some_bind,
    Option.some_bind]
  show (if ((allVarsOf radar none [] []
        (t0, (t0 :: ts).getLast (List.cons_ne_nil t0 ts), u)
        [("volume_number", _create_ncvar
          (Dict.mk [("long_name", Attr.s "Volume number"), ("units", Attr.s "unitless")]
            (NCData.num [0])) [])]).map Prod.fst).Nodup
      then some (NCFile.mk (allDimsOf radar (max m0.length 32) [])
        (gattrsOf env radar)
        (allVarsOf radar none [] []
          (t0, (t0 :: ts).getLast (List.cons_ne_nil t0 ts), u)
          [("volume_number", _create_ncvar
            (Dict.mk [("long_name", Attr.s "Volume number"), ("units", Attr.s "unitless")]
              (NCData.num [0])) [])]))
      else none) = some (NCFile.mk
      (allDimsOf radar (max m0.length 32) [])
      (gattrsOf env radar)
      (c1Vars radar (t0, (t0 :: ts).getLast (List.cons_ne_nil t0 ts), u)
        (timeRefFlag none t0)))
  rw [h6]
  rw [if_pos hnodup]

theorem c1_read (radar : Radar) (F : NCFile) (tb : ℚ × ℚ × String) (b : Bool)
    (m0 : String) (ms : List String)
    (hFv : F.vars = c1Vars radar tb b)
    (hsm : radar.sweep_mode.data = NCData.str (m0 :: ms))
    (hfn : (radar.fields.map Prod.fst).Nodup)
    (hfr : ∀ n ∈ radar.fields.map Prod.fst, ¬ n ∈ reservedNames) :
    read_cfradial F defaultParams = some (Radar.mk
      (_ncvar_to_dict (_create_ncvar radar.time ["time"]))
      (_ncvar_to_dict (_create_ncvar radar.range ["range"]))
      (radar.fields.map (fun kd =>
        (kd.1, _ncvar_to_dict (_create_ncvar kd.2 ["time", "range"]))))
      (aset (aset (aset (aset F.gattrs "volume_number" (Attr.n 0)) "platform_type"
        (Attr.s "fixed")) "instrument_type" (Attr.s "radar")) "primary_axis"
        (Attr.s "axis_z"))
      (scanTypeOfMode m0)
      (_ncvar_to_dict (_create_ncvar radar.latitude (locDimsOf radar)))
      (_ncvar_to_dict (_create_ncvar radar.longitude (locDimsOf radar)))
      (_ncvar_to_dict (_create_ncvar radar.altitude (locDimsOf radar)))
      (_ncvar_to_dict (_create_ncvar radar.sweep_number ["sweep"]))
      (_ncvar_to_dict (_create_ncvar radar.sweep_mode ["sweep", "string_length"]))
      (_ncvar_to_dict (_create_ncvar radar.fixed_angle ["sweep"]))
      (_ncvar_to_dict (_create_ncvar radar.sweep_start_ray_index ["sweep"]))
      (_ncvar_to_dict (_create_ncvar radar.sweep_end_ray_index ["sweep"]))
      (_ncvar_to_dict (_create_ncvar radar.azimuth ["time"]))
      (_ncvar_to_dict (_create_ncvar radar.elevation ["time"]))
      none
      (some (calibOf F))
      none none none none none none none none none none none
      (dataLen radar.range.data) (dataLen radar.sweep_number.data)) := by
  have hnd : ((c1Vars radar tb b).map Prod.fst).Nodup := by
    rw [c1Vars_names]
    exact c1_names_nodup _ _ hfn hfr
  have habs : ∀ k : String, k ∈ reservedNames → ¬ k ∈ c1WrittenNames →
      alookup (c1Vars radar tb b) k = none :=
    fun k hk hk1 => c1Vars_lookup_absent radar tb b k hfr hk hk1
  have l_time : alookup (c1Vars radar tb b) "time" =
      some (_create_ncvar radar.time ["time"]) :=
    alookup_of_mem_nodup hnd (by simp [c1Vars])
  have l_range : alookup (c1Vars radar tb b) "range" =
      some (_create_ncvar radar.range ["range"]) :=
    alookup_of_mem_nodup hnd (by simp [c1Vars])
  have l_az : alookup (c1Vars radar tb b) "azimuth" =
      some (_create_ncvar radar.azimuth ["time"]) :=
    alookup_of_mem_nodup hnd (by simp [c1Vars])
  have l_el : alookup (c1Vars radar tb b) "elevation" =
      some (_create_ncvar radar.elevation ["time"]) :=
    alookup_of_mem_nodup hnd (by simp [c1Vars])
  have l_sn : alookup (c1Vars radar tb b) "sweep_number" =
      some (_create_ncvar radar.sweep_number ["sweep"]) :=
    alookup_of_mem_nodup hnd (by simp [c1Vars])
  have l_fa : alookup (c1Vars radar tb b) "fixed_angle" =
      some (_create_ncvar radar.fixed_angle ["sweep"]) :=
    alookup_of_mem_nodup hnd (by simp [c1Vars])
  have l_ssri : alookup (c1Vars radar tb b) "sweep_start_ray_index" =
      some (_create_ncvar radar.sweep_start_ray_index ["sweep"]) :=
    alookup_of_mem_nodup hnd (by simp [c1Vars])
  have l_seri : alookup (c1Vars radar tb b) "sweep_end_ray_index" =
      some (_create_ncvar radar.sweep_end_ray_index ["sweep"]) :=
    alookup_of_mem_nodup hnd (by simp [c1Vars])
  have l_sm : alookup (c1Vars radar tb b) "sweep_mode" =
      some (_create_ncvar radar.sweep_mode ["sweep", "string_length"]) :=
    alookup_of_mem_nodup hnd (by simp [c1Vars])
  have l_lat : alookup (c1Vars radar tb b) "latitude" =
      some (_create_ncvar radar.latitude (locDimsOf radar)) :=
    alookup_of_mem_nodup hnd (by simp [c1Vars])
  have l_lon : alookup (c1Vars radar tb b) "longitude" =
      some (_create_ncvar radar.longitude (locDimsOf radar)) :=
    alookup_of_mem_nodup hnd (by simp [c1Vars])
  have l_alt : alookup (c1Vars radar tb b) "altitude" =
      some (_create_ncvar radar.altitude (locDimsOf radar)) :=
    alookup_of_mem_nodup hnd (by simp [c1Vars])
  have l_vol : alookup (c1Vars radar tb b) "volume_number" =
      some (_create_ncvar
        (Dict.mk [("long_name", Attr.s "Volume number"), ("units", Attr.s "unitless")]
          (NCData.num [0])) []) :=
    alookup_of_mem_nodup hnd (by simp [c1Vars])
  have hmd : readMetadataOf F = some (aset (aset (aset (aset F.gattrs
      "volume_number" (Attr.n 0)) "platform_type" (Attr.s "fixed"))
      "instrument_type" (Attr.s "radar")) "primary_axis" (Attr.s "axis_z")) := by
    unfold readMetadataOf readGlobalVar
    rw [hFv]
    simp only [l_vol, habs "platform_type" (by decide) (by decide),
      habs "instrument_type" (by decide) (by decide),
      habs "primary_axis" (by decide) (by decide), create_ncvar_data,
      Option.some_bind]
  have hcore : readCoreVars F = some (ReadCore.mk
      (_ncvar_to_dict (_create_ncvar radar.time ["time"]))
      (_ncvar_to_dict (_create_ncvar radar.range ["range"]))
      (_ncvar_to_dict (_create_ncvar radar.latitude (locDimsOf radar)))
      (_ncvar_to_dict (_create_ncvar radar.longitude (locDimsOf radar)))
      (_ncvar_to_dict (_create_ncvar radar.altitude (locDimsOf radar)))
      (_ncvar_to_dict (_create_ncvar radar.sweep_number ["sweep"]))
      (_ncvar_to_dict (_create_ncvar radar.sweep_mode ["sweep", "string_length"]))
      (_ncvar_to_dict (_create_ncvar radar.fixed_angle ["sweep"]))
      (_ncvar_to_dict (_create_ncvar radar.sweep_start_ray_index ["sweep"]))
      (_ncvar_to_dict (_create_ncvar radar.sweep_end_ray_index ["sweep"]))
      (_ncvar_to_dict (_create_ncvar radar.azimuth ["time"]))
      (_ncvar_to_dict (_create_ncvar radar.elevation ["time"]))) := by
    unfold readCoreVars
    rw [hFv]
    simp only [l_time, l_range, l_lat, l_lon, l_alt, l_sn, l_sm, l_fa, l_ssri,
      l_seri, l_az, l_el, Option.map_some', Option.some_bind]
  have ho : optVarsOf F = OptVars.mk none none none none none none none none
      none none none := by
    unfold optVarsOf
    rw [hFv]
    simp only [habs "altitude_agl" (by decide) (by decide),
      habs "target_scan_rate" (by decide) (by decide),
      habs "scan_rate" (by decide) (by decide),
      habs "antenna_transition" (by decide) (by decide),
      habs "rotation" (by decide) (by decide),
      habs "tilt" (by decide) (by decide),
      habs "roll" (by decide) (by decide),
      habs "drift" (by decide) (by decide),
      habs "heading" (by decide) (by decide),
      habs "pitch" (by decide) (by decide),
      habs "georefs_applied" (by decide) (by decide), Option.map_none']
  have hip2 : instParamsOf F = none := by
    have hnil : (_INSTRUMENT_PARAMS_DIMS.filterMap
        (fun kd => (alookup F.vars kd.1).map (fun v => (kd.1, _ncvar_to_dict v)))) =
        [] := by
      rw [List.filterMap_eq_nil_iff]
      intro kd hkd
      rw [hFv]
      fin_cases hkd <;>
        rw [habs _ (by decide) (by decide)] <;> rfl
    unfold instParamsOf
    rw [hnil]
    simp
  have hfvn : (fieldVarsOf radar).map Prod.fst = radar.fields.map Prod.fst := by
    simp [fieldVarsOf, List.map_map, Function.comp]
  have hfields : ∀ core : ReadCore, fieldsOf F defaultParams core =
      some (radar.fields.map (fun kd =>
        (kd.1, _ncvar_to_dict (_create_ncvar kd.2 ["time", "range"])))) := by
    intro core
    unfold fieldsOf
    rw [hFv]
    rw [habs "ray_start_index" (by decide) (by decide)]
    rw [c1Vars_filter_fields]
    rw [buildFields_default _ _ (hfvn ▸ hfn)]
    rw [fieldVarsOf, List.map_map]
    rfl
  unfold read_cfradial
  rw [hmd, Option.some_bind, hcore, Option.some_bind]
  rw [show (ReadCore.mk
      (_ncvar_to_dict (_create_ncvar radar.time ["time"]))
      (_ncvar_to_dict (_create_ncvar radar.range ["range"]))
      (_ncvar_to_dict (_create_ncvar radar.latitude (locDimsOf radar)))
      (_ncvar_to_dict (_create_ncvar radar.longitude (locDimsOf radar)))
      (_ncvar_to_dict (_create_ncvar radar.altitude (locDimsOf radar)))
      (_ncvar_to_dict (_create_ncvar radar.sweep_number ["sweep"]))
      (_ncvar_to_dict (_create_ncvar radar.sweep_mode ["sweep", "string_length"]))
      (_ncvar_to_dict (_create_ncvar radar.fixed_angle ["sweep"]))
      (_ncvar_to_dict (_create_ncvar radar.sweep_start_ray_index ["sweep"]))
      (_ncvar_to_dict (_create_ncvar radar.sweep_end_ray_index ["sweep"]))
      (_ncvar_to_dict (_create_ncvar radar.azimuth ["time"]))
      (_ncvar_to_dict (_create_ncvar radar.elevation
        ["time"]))).sweep_mode.data = radar.sweep_mode.data from rfl]
  rw [hsm]
  rw [show (match NCData.str (m0 :: ms) with
    | NCData.str (m :: _) => some m
    | _ => none) = some m0 from rfl]
  rw [Option.some_bind, hfields, Option.some_bind, hip2, ho]
  rfl

/-- C1: for a radar-volume record with no optional fields set (all optional
record members absent, no reserved metadata entries, a character sweep-mode
array, a numeric nonempty time array with a string units attribute, and field
names that are distinct and avoid the names the writer itself emits), writing
the record and reading the file back succeeds and yields a record whose every
data array — time, range, azimuth, elevation, latitude, longitude, altitude,
the sweep table, and every field (under its own name) — equals the original's
exactly (the model stores numbers as rationals, subsuming the floating-point
tolerance, and strings exactly); the synthesized history attribute and the
attribute reordering are outside the compared data. -/
theorem c1_round_trip (env : WriteEnv) (radar : Radar) (m0 : String) (ms : List String)
    (t0 : ℚ) (ts : List ℚ) (u : String)
    (hip : radar.instrument_parameters = none)
    (hcal : radar.radar_calibration = none)
    (hagl : radar.altitude_agl = none)
    (hsr : radar.scan_rate = none)
    (hat : radar.antenna_transition = none)
    (htsr : radar.target_scan_rate = none)
    (hrot : radar.rotation = none)
    (htlt : radar.tilt = none)
    (hrl : radar.roll = none)
    (hdr : radar.drift = none)
    (hhd : radar.heading = none)
    (hpt : radar.pitch = none)
    (hga : radar.georefs_applied = none)
    (hvol : alookup radar.metadata "volume_number" = none)
    (hplat : alookup radar.metadata "platform_type" = none)
    (hinst : alookup radar.metadata "instrument_type" = none)
    (hax : alookup radar.metadata "primary_axis" = none)
    (hsm : radar.sweep_mode.data = NCData.str (m0 :: ms))
    (htime : radar.time.data = NCData.num (t0 :: ts))
    (hunits : alookup radar.time.attrs "units" = some (Attr.s u))
    (hfn : (radar.fields.map Prod.fst).Nodup)
    (hfr : ∀ n ∈ radar.fields.map Prod.fst, ¬ n ∈ reservedNames) :
    ∃ (f : NCFile) (r : Radar),
      write_cfradial env radar none false = some f ∧
      read_cfradial f defaultParams = some r ∧
      r.time.data = radar.time.data ∧
      r.range.data = radar.range.data ∧
      r.azimuth.data = radar.azimuth.data ∧
      r.elevation.data = radar.elevation.data ∧
      r.latitude.data = radar.latitude.data ∧
      r.longitude.data = radar.longitude.data ∧
      r.altitude.data = radar.altitude.data ∧
      r.sweep_number.data = radar.sweep_number.data ∧
      r.sweep_mode.data = radar.sweep_mode.data ∧
      r.fixed_angle.data = radar.fixed_angle.data ∧
      r.sweep_start_ray_index.data = radar.sweep_start_ray_index.data ∧
      r.sweep_end_ray_index.data = radar.sweep_end_ray_index.data ∧
      r.fields.map (fun kd => (kd.1, kd.2.data)) =
        radar.fields.map (fun kd => (kd.1, kd.2.data)) ∧
      r.scan_type = scanTypeOfMode m0 ∧
      r.instrument_parameters = none ∧
      r.altitude_agl = none ∧ r.scan_rate = none ∧ r.antenna_transition = none ∧
      r.target_scan_rate = none ∧ r.rotation = none ∧ r.tilt = none ∧
      r.roll = none ∧ r.drift = none ∧ r.heading = none ∧ r.pitch = none ∧
      r.georefs_applied = none := by
  have hw := c1_write env radar m0 ms t0 ts u hip hcal hagl hsr hat htsr hrot htlt
    hrl hdr hhd hpt hga hvol hplat hinst hax hsm htime hunits hfn hfr
  have hr := c1_read radar
    (NCFile.mk (allDimsOf radar (max m0.length 32) []) (gattrsOf env radar)
      (c1Vars radar (t0, (t0 :: ts).getLast (List.cons_ne_nil t0 ts), u)
        (timeRefFlag none t0)))
    (t0, (t0 :: ts).getLast (List.cons_ne_nil t0 ts), u)
    (timeRefFlag none t0) m0 ms rfl hsm hfn hfr
  refine ⟨_, _, hw, hr, rfl, rfl, rfl, rfl, rfl, rfl, rfl, rfl, rfl, rfl, rfl, rfl,
    ?_, rfl, rfl, rfl, rfl, rfl, rfl, rfl, rfl, rfl, rfl, rfl, rfl, rfl⟩
  rw [List.map_map]
  rfl

theorem c1_round_trip_witness :
    ∃ (f : NCFile) (r : Radar),
      write_cfradial env0 R0 none false = some f ∧
      read_cfradial f defaultParams = some r ∧
      r.time.data = R0.time.data ∧
      r.range.data = R0.range.data ∧
      r.azimuth.data = R0.azimuth.data ∧
      r.elevation.data = R0.elevation.data ∧
      r.latitude.data = R0.latitude.data ∧
      r.longitude.data = R0.longitude.data ∧
      r.altitude.data = R0.altitude.data ∧
      r.sweep_number.data = R0.sweep_number.data ∧
      r.sweep_mode.data = R0.sweep_mode.data ∧
      r.fixed_angle.data = R0.fixed_angle.data ∧
      r.sweep_start_ray_index.data = R0.sweep_start_ray_index.data ∧
      r.sweep_end_ray_index.data = R0.sweep_end_ray_index.data ∧
      r.fields.map (fun kd => (kd.1, kd.2.data)) =
        R0.fields.map (fun kd => (kd.1, kd.2.data)) ∧
      r.scan_type = scanTypeOfMode "azimuth_surveillance" ∧
      r.instrument_parameters = none ∧
      r.altitude_agl = none ∧ r.scan_rate = none ∧ r.antenna_transition = none ∧
      r.target_scan_rate = none ∧ r.rotation = none ∧ r.tilt = none ∧
      r.roll = none ∧ r.drift = none ∧ r.heading = none ∧ r.pitch = none ∧
      r.georefs_applied = none :=
  c1_round_trip env0 R0 "azimuth_surveillance" [] 1 [2]
    "seconds since 1970-01-01T00:00:00Z" rfl rfl rfl rfl rfl rfl rfl rfl rfl rfl
    rfl rfl rfl rfl rfl rfl rfl rfl rfl rfl (by decide) (by decide)
